import Mathlib

/-!
Verification development for the AEO platform's knowledge-graph and scoring
core (`backend/services/enrichment.py`, `backend/services/knowledge_graph.py`).

The Python code is shallowly embedded: dictionaries with optional keys become
records over `PyField` (a key can be absent, present as `None`, or present
with a value), fallible code returns `Except String`, SQLite tables become
ordered lists of row records, and the NetworkX `DiGraph` becomes an explicit
association structure with the same implicit-node-creation and
attribute-merge semantics as `DiGraph.add_node` / `DiGraph.add_edge`.
Python floats carry exact decimal values in all inputs of interest and are
embedded as rationals.
-/

/-- State of an optional key in a Python dict / DB row: the key can be
missing, present with value `None`, or present with a real value. -/
inductive PyField (α : Type) where
  | absent : PyField α
  | null : PyField α
  | val : α → PyField α
deriving DecidableEq

/-- Embedding of `d.get(key, default)` followed by a use of the result that
raises `TypeError`/`AttributeError` on `None` (`len(None)`, `None.lower()`,
`None.split()`).  `calculate_aeo_score` uses every fetched field
unconditionally, so a `null` field always raises; the single error string
stands for the CPython exception. -/
def pyGet (f : PyField α) (default : α) : Except String α :=
  match f with
  | .absent => .ok default
  | .null => .error "TypeError: NoneType"
  | .val a => .ok a

/-- Value of a field when it is not `null` (`absent` yields the
`dict.get` default); used to state theorems about non-raising runs. -/
def pyVal (f : PyField α) (default : α) : α :=
  match f with
  | .absent => default
  | .null => default
  | .val a => a

/-- Does the character list `n` start the list `h`? (helper for `pyIn`). -/
def listStarts : List Char → List Char → Bool
  | [], _ => true
  | _ :: _, [] => false
  | a :: as, b :: bs => decide (a = b) && listStarts as bs

/-- Helper for `pyIn`: substring search over character lists. -/
def pyInAux (n : List Char) : List Char → Bool
  | [] => listStarts n []
  | c :: rest => listStarts n (c :: rest) || pyInAux n rest

/-- Embedding of Python's `needle in hay` on strings: contiguous substring
containment (the empty needle is contained in everything). -/
def pyIn (needle hay : String) : Bool :=
  pyInAux needle.data hay.data

/-- Embedding of Python's `str.lower()`: per-character lowercasing. -/
def pyLower (s : String) : String :=
  ⟨s.data.map Char.toLower⟩

/-- Helper for `pyWordCount`: counts maximal runs of non-whitespace
characters; the flag records whether a word is currently open. -/
def countWordsAux : List Char → Bool → Nat
  | [], _ => 0
  | c :: rest, inWord =>
    if c.isWhitespace then countWordsAux rest false
    else (if inWord then 0 else 1) + countWordsAux rest true

/-- Embedding of `len(s.split())`: number of whitespace-separated words
(splitting on runs of whitespace, ignoring leading/trailing whitespace). -/
def pyWordCount (s : String) : Nat :=
  countWordsAux s.data false

/-- Embedding of `details[key] = value` on a Python dict kept as an ordered
association list: overwrite in place if the key exists, else append. -/
def setDetail : List (String × String) → String → String → List (String × String)
  | [], k, v => [(k, v)]
  | (k0, v0) :: rest, k, v =>
    if k0 = k then (k, v) :: rest else (k0, v0) :: setDetail rest k v

/-- Embedding of `key in details` / `details[key]` lookup. -/
def getDetail : List (String × String) → String → Option String
  | [], _ => none
  | (k0, v0) :: rest, k => if k0 = k then some v0 else getDetail rest k

/-! ## Scoring engine (`calculate_aeo_score`, enrichment.py lines 99-217) -/

/-- Title-optimization points as a function of `len(enriched_title)`
(enrichment.py lines 119-130; the dict entry starts at 0 and only the listed
branches assign). -/
def title_points (n : Nat) : Int :=
  if 45 ≤ n ∧ n ≤ 60 then 20
  else if (40 ≤ n ∧ n < 45) ∨ (60 < n ∧ n ≤ 70) then 15
  else if 0 < n then 10
  else 0

/-- Detail string set by the title block (none when the title is empty). -/
def title_detail (n : Nat) : Option String :=
  if 45 ≤ n ∧ n ≤ 60 then some "Optimal length"
  else if (40 ≤ n ∧ n < 45) ∨ (60 < n ∧ n ≤ 70) then some "Acceptable length"
  else if 0 < n then some "Suboptimal length"
  else none

/-- Attribute-completeness points (enrichment.py lines 132-146). -/
def attr_points (n : Nat) : Int :=
  if 7 ≤ n then 20
  else if 5 ≤ n then 15
  else if 3 ≤ n then 10
  else 5

/-- Detail string of the attribute block. -/
def attr_detail (n : Nat) : String :=
  if 7 ≤ n then s!"{n} attributes (excellent)"
  else if 5 ≤ n then s!"{n} attributes (good)"
  else if 3 ≤ n then s!"{n} attributes (acceptable)"
  else s!"{n} attributes (poor)"

/-- Description sub-score of semantic richness (enrichment.py lines 154-160). -/
def desc_points (w : Nat) : Int :=
  if 150 ≤ w ∧ w ≤ 200 then 10
  else if (120 ≤ w ∧ w < 150) ∨ (200 < w ∧ w ≤ 250) then 7
  else if 0 < w then 5
  else 0

/-- FAQ sub-score of semantic richness (enrichment.py lines 162-168). -/
def faq_points (n : Nat) : Int :=
  if 5 ≤ n then 10
  else if 3 ≤ n then 7
  else if 0 < n then 5
  else 0

/-- The `score_breakdown` dict returned by `calculate_aeo_score`. -/
structure ScoreBreakdown where
  title_optimization : Int
  attribute_completeness : Int
  semantic_richness : Int
  structured_data : Int
  consistency : Int
  details : List (String × String)
deriving DecidableEq

/-- Body of `calculate_aeo_score` once all dict fields have been fetched
without raising: computes the five dimensions, the details dict (in the
code's insertion order) and the total (enrichment.py lines 110-217). -/
def calc_core (title : String) (attributes : List (String × String))
    (description : String) (faqs : List (String × String))
    (tags : List String) (use_cases : List String)
    (raw_title brand0 category0 : String) : Int × ScoreBreakdown :=
  let title_len := title.length
  let attr_count := attributes.length
  let word_count := pyWordCount description
  let faq_count := faqs.length
  let tags_score : Int := min ((tags.length : Int) * 2) 10
  let use_cases_score : Int := min ((use_cases.length : Int) * 3) 10
  let original_title := pyLower raw_title
  let enriched_title := pyLower title
  let brand := pyLower brand0
  let category := pyLower category0
  let brand_hit := decide (brand ≠ "") && !(pyIn brand enriched_title) &&
    pyIn brand original_title
  let category_hit := decide (category ≠ "") && !(pyIn category (pyLower description))
  let consistency_score : Int :=
    20 - (if brand_hit then 5 else 0) - (if category_hit then 5 else 0)
  let d0 : List (String × String) := []
  let d1 := match title_detail title_len with
    | some s => setDetail d0 "title" s
    | none => d0
  let d2 := setDetail d1 "attributes" (attr_detail attr_count)
  let d3 := setDetail d2 "semantic" s!"{word_count} words, {faq_count} FAQs"
  let d4 := setDetail d3 "structured" s!"{tags.length} tags, {use_cases.length} use cases"
  let d5 := if brand_hit then setDetail d4 "consistency" "Brand missing from enriched title" else d4
  let d6 := if category_hit then
      match getDetail d5 "consistency" with
      | some old => setDetail d5 "consistency" (old ++ ", category not mentioned")
      | none => setDetail d5 "consistency" "Category not mentioned in description"
    else d5
  let d7 := if consistency_score == 20 then setDetail d6 "consistency" "Excellent alignment" else d6
  let breakdown : ScoreBreakdown :=
    { title_optimization := title_points title_len
      attribute_completeness := attr_points attr_count
      semantic_richness := desc_points word_count + faq_points faq_count
      structured_data := tags_score + use_cases_score
      consistency := max consistency_score 0
      details := d7 }
  (breakdown.title_optimization + breakdown.attribute_completeness +
    breakdown.semantic_richness + breakdown.structured_data + breakdown.consistency,
   breakdown)

/-- The `enriched_data` argument of `calculate_aeo_score`. -/
structure EnrichedData where
  enriched_title : PyField String
  key_attributes : PyField (List (String × String))
  long_description : PyField String
  faqs : PyField (List (String × String))
  semantic_tags : PyField (List String)
  use_cases : PyField (List String)
deriving DecidableEq

/-- The `product_data` argument of `calculate_aeo_score` (only the keys the
function reads). -/
structure ProductData where
  raw_title : PyField String
  brand : PyField String
  category : PyField String
deriving DecidableEq

/-- Embedding of `calculate_aeo_score(enriched_data, product_data)`
(enrichment.py lines 99-217).  Field fetches are hoisted to the front: every
fetched field is used unconditionally by the Python body, so the set of
inputs that raise (any field present as `None`) is unchanged, and on
non-raising inputs the result is computed by `calc_core` exactly as in the
source. -/
def calculate_aeo_score (e : EnrichedData) (p : ProductData) :
    Except String (Int × ScoreBreakdown) :=
  pyGet e.enriched_title "" >>= fun title =>
  pyGet e.key_attributes [] >>= fun attributes =>
  pyGet e.long_description "" >>= fun description =>
  pyGet e.faqs [] >>= fun faqs =>
  pyGet e.semantic_tags [] >>= fun tags =>
  pyGet e.use_cases [] >>= fun use_cases =>
  pyGet p.raw_title "" >>= fun raw_title =>
  pyGet p.brand "" >>= fun brand =>
  pyGet p.category "" >>= fun category =>
  .ok (calc_core title attributes description faqs tags use_cases raw_title brand category)

/-! ## Knowledge-graph service (knowledge_graph.py)

Node identity in the NetworkX graph: product nodes are keyed by the integer
product id, category nodes by the string `"category_" + name`, brand nodes by
`"brand_" + name`.  Python ints never equal Python strings, so the three key
spaces are disjoint; the embedding makes that explicit with a sum type. -/

/-- A node key of the NetworkX `DiGraph`. -/
inductive NodeId where
  | pid : Int → NodeId
  | category : String → NodeId
  | brand : String → NodeId
deriving DecidableEq

/-- Attribute dict attached to a node.  `empty` is the attributeless dict a
node gets when `add_edge` creates an endpoint implicitly. -/
inductive NodeAttrs where
  | product (sku : String) (title : String) (category : Option String)
      (brand : Option String) (price : Option Rat) (semantic_tags : List String)
  | categoryNode (name : String)
  | brandNode (name : String)
  | empty
deriving DecidableEq

/-- Attribute dict of an edge.  The outer `Option` on score/reasoning records
whether the key is present in the dict at all (structural edges are added
with only `relationship_type`); the inner `Option` is a present-but-`None`
value (nullable DB columns). -/
structure EdgeAttrs where
  relationship_type : String
  similarity_score : Option (Option Rat)
  reasoning : Option (Option String)
deriving DecidableEq

/-- The in-memory `nx.DiGraph`: insertion-ordered node and edge association
lists; at most one edge per ordered node pair, as in a (non-multi) DiGraph. -/
structure Graph where
  nodes : List (NodeId × NodeAttrs)
  edges : List (NodeId × NodeId × EdgeAttrs)
deriving DecidableEq

def Graph.emptyGraph : Graph := ⟨[], []⟩

/-- Lookup a node's attribute dict. -/
def lookupNodeL : List (NodeId × NodeAttrs) → NodeId → Option NodeAttrs
  | [], _ => none
  | (k0, a) :: rest, k => if k0 = k then some a else lookupNodeL rest k

/-- Replace a key's attrs in place, or append if the key is new
(`DiGraph.add_node` keeps node insertion order and overwrites attributes;
the attribute dicts written by this service always carry the full key set,
so dict update equals replacement). -/
def setNodeL : List (NodeId × NodeAttrs) → NodeId → NodeAttrs → List (NodeId × NodeAttrs)
  | [], k, a => [(k, a)]
  | (k0, a0) :: rest, k, a =>
    if k0 = k then (k, a) :: rest else (k0, a0) :: setNodeL rest k a

/-- `graph.add_node(k, **attrs)`. -/
def Graph.add_node (g : Graph) (k : NodeId) (a : NodeAttrs) : Graph :=
  { g with nodes := setNodeL g.nodes k a }

/-- Implicit node creation performed by `add_edge` for missing endpoints:
the node is appended with an empty attribute dict; an existing node is left
untouched. -/
def Graph.ensure_node (g : Graph) (k : NodeId) : Graph :=
  match lookupNodeL g.nodes k with
  | some _ => g
  | none => { g with nodes := g.nodes ++ [(k, NodeAttrs.empty)] }

def lookupEdgeL : List (NodeId × NodeId × EdgeAttrs) → NodeId → NodeId → Option EdgeAttrs
  | [], _, _ => none
  | (u0, v0, a) :: rest, u, v =>
    if u0 = u ∧ v0 = v then some a else lookupEdgeL rest u v

def setEdgeL : List (NodeId × NodeId × EdgeAttrs) → NodeId → NodeId → EdgeAttrs →
    List (NodeId × NodeId × EdgeAttrs)
  | [], u, v, a => [(u, v, a)]
  | (u0, v0, a0) :: rest, u, v, a =>
    if u0 = u ∧ v0 = v then (u, v, a) :: rest else (u0, v0, a0) :: setEdgeL rest u v a

/-- Dict update of edge attributes on a repeated `add_edge(u, v, **attrs)`:
keys present in the new dict override, keys absent keep the old value. -/
def EdgeAttrs.update (old new : EdgeAttrs) : EdgeAttrs :=
  { relationship_type := new.relationship_type
    similarity_score := match new.similarity_score with
      | some s => some s
      | none => old.similarity_score
    reasoning := match new.reasoning with
      | some r => some r
      | none => old.reasoning }

/-- Edge-slot write of `add_edge` (endpoints already ensured): update the
single (u, v) edge slot of the DiGraph. -/
def addEdgeRaw (g : Graph) (u v : NodeId) (a : EdgeAttrs) : Graph :=
  match lookupEdgeL g.edges u v with
  | some old => { g with edges := setEdgeL g.edges u v (old.update a) }
  | none => { g with edges := g.edges ++ [(u, v, a)] }

/-- `graph.add_edge(u, v, **attrs)`: creates missing endpoints with empty
attribute dicts, then updates the single (u, v) edge slot of the DiGraph. -/
def Graph.add_edge (g : Graph) (u v : NodeId) (a : EdgeAttrs) : Graph :=
  addEdgeRaw ((g.ensure_node u).ensure_node v) u v a

/-- A row of the products-with-enrichment snapshot query (build step 1):
`p.id, p.sku, p.raw_title, p.category, p.brand, p.price, e.enriched_title,
e.semantic_tags` with the LEFT JOIN making the enrichment columns nullable;
`semantic_tags` models the already-JSON-parsed list. -/
structure ProductRow where
  id : Int
  sku : String
  raw_title : String
  category : Option String
  brand : Option String
  price : Option Rat
  enriched_title : Option String
  semantic_tags : Option (List String)
deriving DecidableEq

/-- A row of `product_relationships`. -/
structure RelRow where
  source : Int
  target : Int
  relationship_type : String
  similarity_score : Option Rat
  reasoning : Option String
deriving DecidableEq

/-- A point-in-time read of the catalog used to (re)build the graph. -/
structure Snapshot where
  products : List ProductRow
  relationships : List RelRow
deriving DecidableEq

/-- Embedding of the display-title fallback
`row['enriched_title'] or row['raw_title']`: Python `or` takes the right
operand whenever the left is falsy, i.e. absent (`None`) **or** the empty
string. -/
def displayTitle (enriched : Option String) (raw : String) : String :=
  match enriched with
  | some s => if s = "" then raw else s
  | none => raw

/-- Product node attributes written at build step 1 (knowledge_graph.py
lines 32-42). -/
def productNodeAttrs (p : ProductRow) : NodeAttrs :=
  .product p.sku (displayTitle p.enriched_title p.raw_title) p.category p.brand
    p.price (p.semantic_tags.getD [])

def memS (x : String) : List String → Bool
  | [] => false
  | y :: ys => decide (y = x) || memS x ys

/-- First-seen-order deduplication (`SELECT DISTINCT`). -/
def dedupFirstAux : List String → List String → List String
  | _, [] => []
  | seen, x :: xs =>
    if memS x seen then dedupFirstAux seen xs
    else x :: dedupFirstAux (x :: seen) xs

/-- Distinct non-NULL values of an optional column, in first-seen order. -/
def distinctVals (l : List (Option String)) : List String :=
  dedupFirstAux [] (l.filterMap id)

/-- Build step 2: one category node per distinct non-NULL, non-empty
category (knowledge_graph.py lines 44-53). -/
def addCategoryNodes (g : Graph) (ps : List ProductRow) : Graph :=
  (distinctVals (ps.map (·.category))).foldl
    (fun g c => if c = "" then g else g.add_node (.category c) (.categoryNode c)) g

/-- Build step 3: brand nodes (knowledge_graph.py lines 55-64). -/
def addBrandNodes (g : Graph) (ps : List ProductRow) : Graph :=
  (distinctVals (ps.map (·.brand))).foldl
    (fun g b => if b = "" then g else g.add_node (.brand b) (.brandNode b)) g

/-- Edge attribute dict of a persisted relationship row: all three keys are
present (values may be NULL). -/
def relEdgeAttrs (r : RelRow) : EdgeAttrs :=
  ⟨r.relationship_type, some r.similarity_score, some r.reasoning⟩

/-- Build step 4: one `add_edge` per persisted relationship row
(knowledge_graph.py lines 66-80); `add_edge` creates unknown endpoints. -/
def addRelationshipEdges (g : Graph) (rels : List RelRow) : Graph :=
  rels.foldl (fun g r => g.add_edge (.pid r.source) (.pid r.target) (relEdgeAttrs r)) g

def belongsAttrs : EdgeAttrs := ⟨"BELONGS_TO", none, none⟩

def madeByAttrs : EdgeAttrs := ⟨"MADE_BY", none, none⟩

/-- Build step 5: `BELONGS_TO` edges for products whose category is
non-NULL and non-empty (knowledge_graph.py lines 82-90). -/
def addBelongsToEdges (g : Graph) (ps : List ProductRow) : Graph :=
  ps.foldl (fun g p =>
    match p.category with
    | some c => if c = "" then g else g.add_edge (.pid p.id) (.category c) belongsAttrs
    | none => g) g

/-- Build step 6: `MADE_BY` edges (knowledge_graph.py lines 92-100). -/
def addMadeByEdges (g : Graph) (ps : List ProductRow) : Graph :=
  ps.foldl (fun g p =>
    match p.brand with
    | some b => if b = "" then g else g.add_edge (.pid p.id) (.brand b) madeByAttrs
    | none => g) g

/-- `build_graph_from_db` (knowledge_graph.py lines 19-102): clears the
graph and rebuilds it from the snapshot, in the source's step order. -/
def build_graph_from_db (s : Snapshot) : Graph :=
  let g1 := s.products.foldl (fun g p => g.add_node (.pid p.id) (productNodeAttrs p))
    Graph.emptyGraph
  let g2 := addCategoryNodes g1 s.products
  let g3 := addBrandNodes g2 s.products
  let g4 := addRelationshipEdges g3 s.relationships
  let g5 := addBelongsToEdges g4 s.products
  addMadeByEdges g5 s.products

/-- A build invoked on a service holding any previous graph: the method
begins with `self.graph.clear()`, so the previous graph is discarded. -/
def rebuild (_previous : Graph) (s : Snapshot) : Graph :=
  build_graph_from_db s

/-! ## Relationship store (`_store_relationship`, knowledge_graph.py 272-287) -/

/-- The identity of a persisted relationship row. -/
def tripleKey (r : RelRow) : Int × Int × String :=
  (r.source, r.target, r.relationship_type)

/-- Modelled from the spec: `_store_relationship` runs
`INSERT OR REPLACE INTO product_relationships`, whose replace behaviour is
determined by the table's uniqueness constraint in `schema.sql`, a file this
repository references but which is not under src/.  The spec fixes upsert
semantics per ordered `(source, target, relationshipType)` triple, so the
constraint is modelled as a unique index on that triple; SQLite's
`INSERT OR REPLACE` deletes the conflicting row and appends the new one. -/
def upsert (st : List RelRow) (r : RelRow) : List RelRow :=
  st.filter (fun x => decide (tripleKey x ≠ tripleKey r)) ++ [r]

/-- One proposed relationship parsed from the provider's JSON array; the
`score`/`reasoning` options model keys that may be missing from the dict
(`rel.get('similarity_score', 0.5)`, `rel.get('reasoning', '')`). -/
structure Proposal where
  target_product_id : Int
  relationship_type : String
  similarity_score : Option Rat
  reasoning : Option String
deriving DecidableEq

/-- The row persisted for a proposal (knowledge_graph.py lines 188-196):
missing score defaults to 0.5, missing reasoning to the empty string. -/
def proposalRow (source_id : Int) (rel : Proposal) : RelRow :=
  ⟨source_id, rel.target_product_id, rel.relationship_type,
    some (rel.similarity_score.getD (1/2 : Rat)), some (rel.reasoning.getD "")⟩

/-- The storage loop of `analyze_product_relationships`: every parsed
proposal is stored; no cap, score filter, target check or type check. -/
def store_relationships (source_id : Int) (proposals : List Proposal)
    (store : List RelRow) : List RelRow :=
  proposals.foldl (fun st rel => upsert st (proposalRow source_id rel)) store

def hasProduct (ps : List ProductRow) (i : Int) : Bool :=
  ps.any (fun p => decide (p.id = i))

/-- `analyze_product_relationships` (knowledge_graph.py lines 104-207) for a
successful provider round, parametric in the provider's parsed proposals:
raises if the source product does not exist, otherwise persists every
proposal, rebuilds the graph from the updated store, and returns the parsed
proposals unchanged.  (Provider/parse failure raises and rolls back; that
path persists nothing and is outside these claims.) -/
def analyze_product_relationships (s : Snapshot) (pid : Int)
    (proposals : List Proposal) : Except String (List RelRow × Graph × List Proposal) :=
  if hasProduct s.products pid then
    let store := store_relationships pid proposals s.relationships
    .ok (store, build_graph_from_db ⟨s.products, store⟩, proposals)
  else .error "Product not found"

/-! ## Relationship views and recommendations (knowledge_graph.py 289-367) -/

/-- A row of `get_product_relationships`' result. -/
structure RelView where
  product_id : Int
  sku : String
  title : String
  category : Option String
  brand : Option String
  price : Option Rat
  relationship_type : String
  similarity_score : Option Rat
  reasoning : Option String
deriving DecidableEq

def findProduct (ps : List ProductRow) (i : Int) : Option ProductRow :=
  ps.find? (fun p => decide (p.id = i))

def mkRelView (r : RelRow) (p : ProductRow) : RelView :=
  ⟨r.target, p.sku, displayTitle p.enriched_title p.raw_title, p.category,
    p.brand, p.price, r.relationship_type, r.similarity_score, r.reasoning⟩

/-- `get_product_relationships` (knowledge_graph.py lines 289-330): rows of
`product_relationships` with the given source, inner-joined with `products`
on the target id (rows with no matching product are dropped by the JOIN), in
store order. -/
def get_product_relationships (s : Snapshot) (pid : Int) : List RelView :=
  s.relationships.filterMap (fun r =>
    if r.source = pid then (findProduct s.products r.target).map (mkRelView r)
    else none)

def viewScoreKey (v : RelView) : Rat := v.similarity_score.getD 0

/-- Stable insertion step for descending sort: `x` is placed before the
first element whose key is less than or equal to its own, so elements with
equal keys keep their original relative order. -/
def insertDesc (x : RelView) : List RelView → List RelView
  | [] => [x]
  | y :: ys =>
    if viewScoreKey y ≤ viewScoreKey x then x :: y :: ys else y :: insertDesc x ys

/-- Stable descending sort by similarity score. -/
def sortDesc : List RelView → List RelView
  | [] => []
  | x :: xs => insertDesc x (sortDesc xs)

/-- Embedding of `sorted(rows, key=lambda x: x['similarity_score'],
reverse=True)` in CPython: the sort is stable, and with two or more elements
every element takes part in at least one comparison, so any `None` key makes
the comparison raise `TypeError`; with fewer than two elements no comparison
happens. -/
def pySortedByScoreDesc (l : List RelView) : Except String (List RelView) :=
  if 2 ≤ l.length ∧ l.any (fun v => v.similarity_score.isNone) then
    .error "TypeError: NoneType comparison"
  else .ok (sortDesc l)

structure Recommendations where
  similar : List RelView
  complements : List RelView
  alternatives : List RelView
deriving DecidableEq

/-- `get_recommendations` (knowledge_graph.py lines 332-367): partition the
product's relationship views by type (unknown types are skipped), sort each
partition by score descending, truncate to `limit` (call sites default it
to 5). -/
def get_recommendations (s : Snapshot) (pid : Int) (limit : Nat) :
    Except String Recommendations :=
  let relationships := get_product_relationships s pid
  pySortedByScoreDesc (relationships.filter
      (fun v => decide (v.relationship_type = "SIMILAR_TO"))) >>= fun sim =>
  pySortedByScoreDesc (relationships.filter
      (fun v => decide (v.relationship_type = "COMPLEMENTS"))) >>= fun comp =>
  pySortedByScoreDesc (relationships.filter
      (fun v => decide (v.relationship_type = "ALTERNATIVE_TO"))) >>= fun alt =>
  .ok ⟨sim.take limit, comp.take limit, alt.take limit⟩

/-! ## Batch orchestrator (`batch_analyze_all_products`, 439-483) -/

/-- Payload of one `progress_callback` invocation. -/
structure ProgressUpdate where
  product_id : Int
  processed : Nat
  total : Nat
  relationships_found : Nat
deriving DecidableEq

/-- The summary dict returned by the batch. -/
structure BatchSummary where
  total_products : Nat
  processed : Nat
  total_relationships : Nat
deriving DecidableEq

/-- One loop iteration of the batch (knowledge_graph.py lines 461-477): on
success the counters advance and the callback fires (inside the `try`); on
failure the error is caught, `processed` is still incremented, and no
callback fires. -/
def batchStep (total : Nat) (analyze : Int → Except String (List Proposal))
    (acc : Nat × Nat × List ProgressUpdate) (pid : Int) : Nat × Nat × List ProgressUpdate :=
  match analyze pid with
  | .ok rels =>
    (acc.1 + 1, acc.2.1 + rels.length, acc.2.2 ++ [⟨pid, acc.1 + 1, total, rels.length⟩])
  | .error _ => (acc.1 + 1, acc.2.1, acc.2.2)

/-- `batch_analyze_all_products`, parametric in the per-item discovery
outcome (the awaited `analyze_product_relationships` call); returns the
summary and the full sequence of progress-callback invocations. -/
def batch_analyze_all_products (product_ids : List Int)
    (analyze : Int → Except String (List Proposal)) : BatchSummary × List ProgressUpdate :=
  let total := product_ids.length
  let acc := product_ids.foldl (batchStep total analyze) (0, 0, [])
  (⟨total, acc.1, acc.2.1⟩, acc.2.2)

/-- Progress log emitted by the batch loop starting from a given processed
count (proof helper mirroring the loop). -/
def batchLog (total : Nat) (analyze : Int → Except String (List Proposal)) :
    Nat → List Int → List ProgressUpdate
  | _, [] => []
  | p, i :: is =>
    match analyze i with
    | .ok rels => ⟨i, p + 1, total, rels.length⟩ :: batchLog total analyze (p + 1) is
    | .error _ => batchLog total analyze (p + 1) is

/-- Relationship count of a per-item outcome (0 for a caught failure). -/
def exceptSize : Except String (List Proposal) → Nat
  | .ok rels => rels.length
  | .error _ => 0

/-! ## Concrete inputs used by witnesses and counterexamples -/

def w_title50 : String := String.mk (List.replicate 50 'a')

def w_desc175 : String := String.intercalate " " (List.replicate 175 "word")

def w_enriched2 : EnrichedData :=
  ⟨.val w_title50, .val (List.replicate 8 ("k", "v")), .val w_desc175,
    .val (List.replicate 4 ("q", "a")), .val ["t1", "t2", "t3", "t4", "t5", "t6"],
    .val ["u1", "u2", "u3"]⟩

def w_product2 : ProductData := ⟨.val "Raw Mouse", .absent, .absent⟩

def w_breakdown2 : ScoreBreakdown :=
  ⟨20, 20, 17, 19, 20,
    [("title", "Optimal length"), ("attributes", "8 attributes (excellent)"),
      ("semantic", "175 words, 4 FAQs"), ("structured", "6 tags, 3 use cases"),
      ("consistency", "Excellent alignment")]⟩

def w_enriched3 : EnrichedData :=
  ⟨.val "Ergonomic Wireless Mouse for Professionals", .absent, .absent, .absent,
    .absent, .absent⟩

def w_product3 : ProductData :=
  ⟨.val "Acme Wireless Mouse", .val "Acme", .val "Electronics"⟩

def w_breakdown3 : ScoreBreakdown :=
  ⟨15, 5, 0, 0, 10,
    [("title", "Acceptable length"), ("attributes", "0 attributes (poor)"),
      ("semantic", "0 words, 0 FAQs"), ("structured", "0 tags, 0 use cases"),
      ("consistency", "Brand missing from enriched title, category not mentioned")]⟩

/-- An enriched-data record whose `enriched_title` key is present with value
`None` (as a nullable `enriched_products.enriched_title` column yields). -/
def cx_enriched_null : EnrichedData := ⟨.null, .absent, .absent, .absent, .absent, .absent⟩

/-- A product record whose `brand` key holds `None`, exactly what
`app/main.py` passes from a NULL `products.brand` column. -/
def cx_product_brand_null : ProductData := ⟨.val "Mouse", .null, .absent⟩

def w_enriched_empty : EnrichedData := ⟨.absent, .absent, .absent, .absent, .absent, .absent⟩

def w_product_empty : ProductData := ⟨.absent, .absent, .absent⟩

/-- Snapshot with one product and one persisted relationship whose target
id 99 is not in the catalog. -/
def cx_snapshot7 : Snapshot :=
  ⟨[⟨1, "SKU1", "Widget", none, none, none, none, none⟩],
    [⟨1, 99, "SIMILAR_TO", some (9/10 : Rat), some "close match"⟩]⟩

/-- Snapshot with one product whose category is present but empty. -/
def cx_snapshot9 : Snapshot :=
  ⟨[⟨1, "SKU1", "Widget", some "", some "Acme", none, none, none⟩], []⟩

def w_snapshot9 : Snapshot :=
  ⟨[⟨1, "SKU1", "Widget", some "Tools", some "Acme", none, none, none⟩], []⟩

def w_row1 : RelRow := ⟨1, 2, "SIMILAR_TO", some (7/10 : Rat), some "r1"⟩

def w_row2 : RelRow := ⟨1, 2, "SIMILAR_TO", some (9/10 : Rat), some "r2"⟩

def w_row3 : RelRow := ⟨1, 2, "COMPLEMENTS", some (6/10 : Rat), some "r3"⟩

def cx_snapshot4 : Snapshot :=
  ⟨[⟨1, "SKU1", "Widget", none, none, none, none, none⟩,
    ⟨2, "SKU2", "Gadget", none, none, none, none, none⟩], []⟩

/-- Six provider proposals: one below the 0.5 threshold, one with a
malformed relationship type, two referencing products absent from the
catalog, and more than five in total. -/
def cx_proposals4 : List Proposal :=
  [⟨2, "SIMILAR_TO", some (2/5 : Rat), some "low score"⟩,
   ⟨2, "COMPLEMENTS", some (3/5 : Rat), some "a"⟩,
   ⟨2, "ALTERNATIVE_TO", some (7/10 : Rat), some "b"⟩,
   ⟨2, "BOGUS", some (9/10 : Rat), some "malformed type"⟩,
   ⟨999, "SIMILAR_TO", some (9/10 : Rat), some "no such product"⟩,
   ⟨777, "SIMILAR_TO", none, none⟩]

def cx_snapshot5a : Snapshot :=
  ⟨[⟨1, "S1", "P1", none, none, none, none, none⟩,
    ⟨2, "S2", "P2", none, none, none, none, none⟩,
    ⟨3, "S3", "P3", none, none, none, none, none⟩],
   [⟨1, 3, "SIMILAR_TO", some (Rat.mk' 1 2), some ""⟩,
    ⟨1, 2, "SIMILAR_TO", some (Rat.mk' 1 2), some ""⟩]⟩

def cx_snapshot5b : Snapshot :=
  ⟨[⟨1, "S1", "P1", none, none, none, none, none⟩,
    ⟨2, "S2", "P2", none, none, none, none, none⟩,
    ⟨3, "S3", "P3", none, none, none, none, none⟩],
   [⟨1, 2, "SIMILAR_TO", none, none⟩,
    ⟨1, 3, "SIMILAR_TO", some (Rat.mk' 9 10), some ""⟩]⟩

/-- Per-item discovery outcome that fails on product 1 and succeeds with no
relationships on every other product. -/
def cx_analyze8 : Int → Except String (List Proposal) :=
  fun i => if i = 1 then .error "analysis failed" else .ok []

def w_snapshot10 : Snapshot :=
  ⟨[⟨1, "S1", "RawTitle One", none, none, none, some "", none⟩,
    ⟨2, "S2", "RawTitle Two", none, none, none, some "", none⟩],
   [⟨1, 2, "SIMILAR_TO", some (Rat.mk' 1 2), some ""⟩]⟩

/-- The (source, target) keys of an edge list. -/
def edgeKeys (l : List (NodeId × NodeId × EdgeAttrs)) : List (NodeId × NodeId) :=
  l.map (fun e => (e.1, e.2.1))

/-- Number of parallel edges from `u` to `v` (a DiGraph admits at most 1). -/
def countEdges (l : List (NodeId × NodeId × EdgeAttrs)) (u v : NodeId) : Nat :=
  (l.filter (fun e => decide (e.1 = u) && decide (e.2.1 = v))).length

/-- Edges leaving `u` that carry the given relationship type. -/
def edgesFromWithType (g : Graph) (u : NodeId) (ty : String) :
    List (NodeId × NodeId × EdgeAttrs) :=
  g.edges.filter (fun e => decide (e.1 = u) && decide (e.2.2.relationship_type = ty))

/-- Store rows carrying a given (source, target, type) triple. -/
def rowsWithTriple (st : List RelRow) (k : Int × Int × String) : List RelRow :=
  st.filter (fun x => decide (tripleKey x = k))

/-! ## Scoring rules as written in the spec (section 4.5) -/

/-- Spec rule: title points from the enriched-title character count:
45-60 gives 20; 40-44 or 61-70 gives 15; any other non-empty gives 10;
empty gives 0. -/
def spec_title_points (n : Nat) : Int :=
  if 45 ≤ n ∧ n ≤ 60 then 20
  else if (40 ≤ n ∧ n ≤ 44) ∨ (61 ≤ n ∧ n ≤ 70) then 15
  else if n ≠ 0 then 10
  else 0

/-- Spec rule: attribute-completeness points from the key-attribute count:
at least 7 gives 20; at least 5 gives 15; at least 3 gives 10; else 5. -/
def spec_attr_points (n : Nat) : Int :=
  if 7 ≤ n then 20
  else if 5 ≤ n then 15
  else if 3 ≤ n then 10
  else 5

/-- Spec rule: description sub-score from the word count: 150-200 gives 10;
120-149 or 201-250 gives 7; other non-zero gives 5; zero gives 0. -/
def spec_desc_points (w : Nat) : Int :=
  if 150 ≤ w ∧ w ≤ 200 then 10
  else if (120 ≤ w ∧ w ≤ 149) ∨ (201 ≤ w ∧ w ≤ 250) then 7
  else if w ≠ 0 then 5
  else 0

/-- Spec rule: FAQ sub-score: at least 5 gives 10; at least 3 gives 7;
more than 0 gives 5; zero gives 0. -/
def spec_faq_points (n : Nat) : Int :=
  if 5 ≤ n then 10
  else if 3 ≤ n then 7
  else if 0 < n then 5
  else 0

/-- Spec rule: structured-data points `min(tagCount*2,10) + min(useCaseCount*3,10)`. -/
def spec_structured_points (tagCount useCaseCount : Nat) : Int :=
  min ((tagCount : Int) * 2) 10 + min ((useCaseCount : Int) * 3) 10

/-- Spec rule: consistency starts at 20, loses 5 per triggered penalty,
floored at 0. -/
def spec_consistency_points (brandPenalty categoryPenalty : Bool) : Int :=
  max (20 - (if brandPenalty then 5 else 0) - (if categoryPenalty then 5 else 0)) 0

/-! ## Scoring lemmas -/

theorem pyGet_ok_iff {α} {f : PyField α} {d a : α} :
    pyGet f d = .ok a ↔ f ≠ PyField.null ∧ a = pyVal f d := by
  cases f <;> simp [pyGet, pyVal] <;> exact eq_comm

theorem pyGet_ok_of_ne_null {α} {f : PyField α} (d : α) (h : f ≠ PyField.null) :
    pyGet f d = .ok (pyVal f d) := pyGet_ok_iff.mpr ⟨h, rfl⟩

theorem exceptBind_ok {α β} {x : Except String α} {f : α → Except String β} {b : β} :
    (x >>= f) = .ok b ↔ ∃ a, x = .ok a ∧ f a = .ok b := by
  cases x <;> simp [Bind.bind, Except.bind]

/-- Inversion: a non-raising run of `calculate_aeo_score` means no field was
present as `None`, and the result is `calc_core` of the fetched values. -/
theorem calculate_ok_inv {e : EnrichedData} {p : ProductData} {r : Int × ScoreBreakdown}
    (h : calculate_aeo_score e p = .ok r) :
    e.enriched_title ≠ PyField.null ∧ e.key_attributes ≠ PyField.null ∧
    e.long_description ≠ PyField.null ∧ e.faqs ≠ PyField.null ∧
    e.semantic_tags ≠ PyField.null ∧ e.use_cases ≠ PyField.null ∧
    p.raw_title ≠ PyField.null ∧ p.brand ≠ PyField.null ∧ p.category ≠ PyField.null ∧
    r = calc_core (pyVal e.enriched_title "") (pyVal e.key_attributes [])
      (pyVal e.long_description "") (pyVal e.faqs []) (pyVal e.semantic_tags [])
      (pyVal e.use_cases []) (pyVal p.raw_title "") (pyVal p.brand "")
      (pyVal p.category "") := by
  simp only [calculate_aeo_score, exceptBind_ok, pyGet_ok_iff] at h
  obtain ⟨t, ⟨h1, rfl⟩, a, ⟨h2, rfl⟩, d, ⟨h3, rfl⟩, f, ⟨h4, rfl⟩, tg, ⟨h5, rfl⟩,
    u, ⟨h6, rfl⟩, rt, ⟨h7, rfl⟩, b, ⟨h8, rfl⟩, c, ⟨h9, rfl⟩, hr⟩ := h
  exact ⟨h1, h2, h3, h4, h5, h6, h7, h8, h9, (Except.ok.injEq _ _ ▸ hr :).symm⟩

theorem pyLower_eq_empty_iff (s : String) : pyLower s = "" ↔ s = "" := by
  obtain ⟨l⟩ := s
  constructor
  · intro h
    have h2 : l.map Char.toLower = [] := congrArg String.data h
    have h3 : l = [] := List.map_eq_nil_iff.mp h2
    simp [h3]
  · intro h
    rw [h]
    decide

theorem title_points_eq_spec (n : Nat) : title_points n = spec_title_points n := by
  simp only [title_points, spec_title_points]
  split_ifs <;> omega

theorem attr_points_eq_spec (n : Nat) : attr_points n = spec_attr_points n := rfl

theorem desc_points_eq_spec (w : Nat) : desc_points w = spec_desc_points w := by
  simp only [desc_points, spec_desc_points]
  split_ifs <;> omega

theorem faq_points_eq_spec (n : Nat) : faq_points n = spec_faq_points n := rfl

theorem title_points_bounds (n : Nat) : 0 ≤ title_points n ∧ title_points n ≤ 20 := by
  simp only [title_points]; split_ifs <;> omega

theorem attr_points_bounds (n : Nat) : 0 ≤ attr_points n ∧ attr_points n ≤ 20 := by
  simp only [attr_points]; split_ifs <;> omega

theorem desc_points_bounds (w : Nat) : 0 ≤ desc_points w ∧ desc_points w ≤ 10 := by
  simp only [desc_points]; split_ifs <;> omega

theorem faq_points_bounds (n : Nat) : 0 ≤ faq_points n ∧ faq_points n ≤ 10 := by
  simp only [faq_points]; split_ifs <;> omega

theorem calc_core_total_spec (title : String) (attributes : List (String × String))
    (description : String) (faqs : List (String × String))
    (tags : List String) (use_cases : List String)
    (raw_title brand0 category0 : String) :
    (calc_core title attributes description faqs tags use_cases raw_title brand0 category0).1 =
      ((calc_core title attributes description faqs tags use_cases raw_title brand0 category0).2.title_optimization +
       (calc_core title attributes description faqs tags use_cases raw_title brand0 category0).2.attribute_completeness +
       (calc_core title attributes description faqs tags use_cases raw_title brand0 category0).2.semantic_richness +
       (calc_core title attributes description faqs tags use_cases raw_title brand0 category0).2.structured_data +
       (calc_core title attributes description faqs tags use_cases raw_title brand0 category0).2.consistency) ∧
    (calc_core title attributes description faqs tags use_cases raw_title brand0 category0).1 ≤ 100 := by
  refine ⟨rfl, ?_⟩
  show title_points title.length + attr_points attributes.length +
      (desc_points (pyWordCount description) + faq_points faqs.length) +
      (min ((tags.length : Int) * 2) 10 + min ((use_cases.length : Int) * 3) 10) +
      max (20 - _ - _) 0 ≤ 100
  have h1 := title_points_bounds title.length
  have h2 := attr_points_bounds attributes.length
  have h3 := desc_points_bounds (pyWordCount description)
  have h4 := faq_points_bounds faqs.length
  have h5 : (0 : Int) ≤ (tags.length : Int) * 2 := by positivity
  have h6 : (0 : Int) ≤ (use_cases.length : Int) * 3 := by positivity
  split_ifs <;> omega

theorem bool_and_rot (x y z : Bool) : (x && y && z) = (x && z && y) := by
  cases x <;> cases y <;> cases z <;> rfl

/-! ## Claim C1 -/

/-- Claim C1 counterexample: `calculate_aeo_score` does raise on records
with a null field.  A present-but-`None` `enriched_title` hits `len(None)`
(`TypeError`), and a `None` brand — exactly what `app/main.py` passes for a
NULL `products.brand` column — hits `None.lower()`.  So the claim's "absent,
empty, or null ... never fail" is false for null fields. -/
theorem claim_C1_counterexample :
    calculate_aeo_score cx_enriched_null w_product_empty = .error "TypeError: NoneType" ∧
    calculate_aeo_score w_enriched_empty cx_product_brand_null = .error "TypeError: NoneType" :=
  ⟨rfl, rfl⟩

/-- Claim C1 (amended): for every enriched-data and product-context record
none of whose fields is present as `None` — fields may be absent or hold
empty strings/lists — `calculate_aeo_score` returns a result without
raising; absent or empty inputs only lower dimension scores. -/
theorem claim_C1_theorem (e : EnrichedData) (p : ProductData)
    (h1 : e.enriched_title ≠ PyField.null) (h2 : e.key_attributes ≠ PyField.null)
    (h3 : e.long_description ≠ PyField.null) (h4 : e.faqs ≠ PyField.null)
    (h5 : e.semantic_tags ≠ PyField.null) (h6 : e.use_cases ≠ PyField.null)
    (h7 : p.raw_title ≠ PyField.null) (h8 : p.brand ≠ PyField.null)
    (h9 : p.category ≠ PyField.null) :
    (calculate_aeo_score e p).isOk = true := by
  simp only [calculate_aeo_score, pyGet_ok_of_ne_null "" h1, pyGet_ok_of_ne_null [] h2,
    pyGet_ok_of_ne_null "" h3, pyGet_ok_of_ne_null [] h4, pyGet_ok_of_ne_null [] h5,
    pyGet_ok_of_ne_null [] h6, pyGet_ok_of_ne_null "" h7, pyGet_ok_of_ne_null "" h8,
    pyGet_ok_of_ne_null "" h9]
  rfl

/-- Claim C1 witness: the all-fields-absent records score without raising. -/
theorem claim_C1_witness :
    (calculate_aeo_score w_enriched_empty w_product_empty).isOk = true :=
  claim_C1_theorem w_enriched_empty w_product_empty (by decide) (by decide) (by decide)
    (by decide) (by decide) (by decide) (by decide) (by decide) (by decide)

/-! ## Claim C2 -/

/-- Claim C2: on every non-raising run, the title, attribute, semantic and
structured dimensions equal the spec's rules applied to the fetched values,
the returned total is the sum of the five dimensions and is at most 100; and
the spec rules yield the claimed concrete values (50-char title gives 20,
empty title 0, 8 attributes 20, 175 words with 4 FAQs 17, 6 tags and 3
use-cases 19). -/
theorem claim_C2_theorem (e : EnrichedData) (p : ProductData) (r : Int × ScoreBreakdown)
    (h : calculate_aeo_score e p = .ok r) :
    r.2.title_optimization = spec_title_points (pyVal e.enriched_title "").length ∧
    r.2.attribute_completeness = spec_attr_points (pyVal e.key_attributes []).length ∧
    r.2.semantic_richness =
      spec_desc_points (pyWordCount (pyVal e.long_description "")) +
      spec_faq_points (pyVal e.faqs []).length ∧
    r.2.structured_data =
      spec_structured_points (pyVal e.semantic_tags []).length (pyVal e.use_cases []).length ∧
    r.1 = r.2.title_optimization + r.2.attribute_completeness + r.2.semantic_richness +
      r.2.structured_data + r.2.consistency ∧
    r.1 ≤ 100 ∧
    (spec_title_points 50 = 20 ∧ spec_title_points 0 = 0 ∧ spec_attr_points 8 = 20 ∧
      spec_desc_points 175 + spec_faq_points 4 = 17 ∧ spec_structured_points 6 3 = 19) := by
  obtain ⟨-, -, -, -, -, -, -, -, -, hr⟩ := calculate_ok_inv h
  subst hr
  refine ⟨title_points_eq_spec _, attr_points_eq_spec _, ?_, rfl, ?_, ?_, by decide⟩
  · show desc_points _ + faq_points _ = _
    rw [desc_points_eq_spec, faq_points_eq_spec]
  · exact (calc_core_total_spec _ _ _ _ _ _ _ _ _).1
  · exact (calc_core_total_spec _ _ _ _ _ _ _ _ _).2

set_option maxRecDepth 40000 in
/-- Claim C2 witness at a concrete enrichment: a 50-character title, 8
attributes, a 175-word description, 4 FAQs, 6 tags, 3 use-cases. -/
theorem claim_C2_witness :
    w_breakdown2.title_optimization = spec_title_points (pyVal w_enriched2.enriched_title "").length ∧
    w_breakdown2.attribute_completeness = spec_attr_points (pyVal w_enriched2.key_attributes []).length ∧
    w_breakdown2.semantic_richness =
      spec_desc_points (pyWordCount (pyVal w_enriched2.long_description "")) +
      spec_faq_points (pyVal w_enriched2.faqs []).length ∧
    w_breakdown2.structured_data =
      spec_structured_points (pyVal w_enriched2.semantic_tags []).length
        (pyVal w_enriched2.use_cases []).length ∧
    (96 : Int) = w_breakdown2.title_optimization + w_breakdown2.attribute_completeness +
      w_breakdown2.semantic_richness + w_breakdown2.structured_data + w_breakdown2.consistency ∧
    (96 : Int) ≤ 100 ∧
    (spec_title_points 50 = 20 ∧ spec_title_points 0 = 0 ∧ spec_attr_points 8 = 20 ∧
      spec_desc_points 175 + spec_faq_points 4 = 17 ∧ spec_structured_points 6 3 = 19) :=
  claim_C2_theorem w_enriched2 w_product2 (96, w_breakdown2) rfl

/-! ## Claim C3 -/

/-- Claim C3: on every non-raising run the consistency dimension equals the
spec rule: start at 20; lose 5 when the raw brand is non-empty, occurs
case-insensitively in the raw title and not in the enriched title; lose 5
when the category is non-empty and does not occur case-insensitively in the
long description; floored at 0. -/
theorem claim_C3_theorem (e : EnrichedData) (p : ProductData) (r : Int × ScoreBreakdown)
    (h : calculate_aeo_score e p = .ok r) :
    r.2.consistency = spec_consistency_points
      (decide (pyVal p.brand "" ≠ "") &&
        pyIn (pyLower (pyVal p.brand "")) (pyLower (pyVal p.raw_title "")) &&
        !(pyIn (pyLower (pyVal p.brand "")) (pyLower (pyVal e.enriched_title "")))) 
      (decide (pyVal p.category "" ≠ "") &&
        !(pyIn (pyLower (pyVal p.category "")) (pyLower (pyVal e.long_description "")))) := by
  obtain ⟨-, -, -, -, -, -, -, -, -, hr⟩ := calculate_ok_inv h
  subst hr
  show max (20 -
      (if (decide (pyLower (pyVal p.brand "") ≠ "") &&
            !(pyIn (pyLower (pyVal p.brand "")) (pyLower (pyVal e.enriched_title ""))) &&
            pyIn (pyLower (pyVal p.brand "")) (pyLower (pyVal p.raw_title "")))
        then 5 else 0) -
      (if (decide (pyLower (pyVal p.category "") ≠ "") &&
            !(pyIn (pyLower (pyVal p.category "")) (pyLower (pyVal e.long_description ""))))
        then 5 else 0)) 0 = _
  simp only [spec_consistency_points]
  rw [decide_eq_decide.mpr (not_congr (pyLower_eq_empty_iff (pyVal p.brand ""))),
    decide_eq_decide.mpr (not_congr (pyLower_eq_empty_iff (pyVal p.category ""))),
    bool_and_rot]

/-- Claim C3 witness: brand "Acme" appears in the raw title but not the
enriched title, and category "Electronics" is absent from the (empty)
description, so consistency is 20 - 5 - 5 = 10. -/
theorem claim_C3_witness :
    w_breakdown3.consistency = spec_consistency_points
      (decide (pyVal w_product3.brand "" ≠ "") &&
        pyIn (pyLower (pyVal w_product3.brand "")) (pyLower (pyVal w_product3.raw_title "")) &&
        !(pyIn (pyLower (pyVal w_product3.brand "")) (pyLower (pyVal w_enriched3.enriched_title "")))) 
      (decide (pyVal w_product3.category "" ≠ "") &&
        !(pyIn (pyLower (pyVal w_product3.category "")) (pyLower (pyVal w_enriched3.long_description "")))) :=
  claim_C3_theorem w_enriched3 w_product3 (30, w_breakdown3) rfl


/-! ## Graph infrastructure lemmas -/

theorem lookupNodeL_set_self (l : List (NodeId × NodeAttrs)) (k : NodeId) (a : NodeAttrs) :
    lookupNodeL (setNodeL l k a) k = some a := by
  induction l with
  | nil => simp [setNodeL, lookupNodeL]
  | cons hd tl ih =>
    obtain ⟨k0, a0⟩ := hd
    by_cases h : k0 = k <;> simp [setNodeL, lookupNodeL, h, ih]

theorem lookupNodeL_set_ne (l : List (NodeId × NodeAttrs)) (k k' : NodeId) (a : NodeAttrs)
    (h : k' ≠ k) : lookupNodeL (setNodeL l k a) k' = lookupNodeL l k' := by
  induction l with
  | nil => simp [setNodeL, lookupNodeL, Ne.symm h]
  | cons hd tl ih =>
    obtain ⟨k0, a0⟩ := hd
    simp only [setNodeL]
    by_cases h0 : k0 = k
    · subst h0
      simp [lookupNodeL, Ne.symm h]
    · rw [if_neg h0]
      by_cases h1 : k0 = k' <;> simp [lookupNodeL, h1, ih]

theorem lookupNodeL_append_some (l m : List (NodeId × NodeAttrs)) (k : NodeId)
    (a : NodeAttrs) (h : lookupNodeL l k = some a) : lookupNodeL (l ++ m) k = some a := by
  induction l with
  | nil => simp [lookupNodeL] at h
  | cons hd tl ih =>
    obtain ⟨k0, a0⟩ := hd
    by_cases h0 : k0 = k <;> simp_all [lookupNodeL, h0]

theorem lookupNodeL_append_one_ne (l : List (NodeId × NodeAttrs)) (k k' : NodeId)
    (a : NodeAttrs) (h : k' ≠ k) (h2 : lookupNodeL l k' = none) :
    lookupNodeL (l ++ [(k, a)]) k' = none := by
  induction l with
  | nil => simp [lookupNodeL, Ne.symm h]
  | cons hd tl ih =>
    obtain ⟨k0, a0⟩ := hd
    by_cases h0 : k0 = k' <;> simp_all [lookupNodeL, h0]

theorem lookupNodeL_append_one_self (l : List (NodeId × NodeAttrs)) (k : NodeId)
    (a : NodeAttrs) (h : lookupNodeL l k = none) :
    lookupNodeL (l ++ [(k, a)]) k = some a := by
  induction l with
  | nil => simp [lookupNodeL]
  | cons hd tl ih =>
    obtain ⟨k0, a0⟩ := hd
    by_cases h0 : k0 = k <;> simp_all [lookupNodeL, h0]

theorem ensure_node_lookup_some (g : Graph) (k k' : NodeId) (a : NodeAttrs)
    (h : lookupNodeL g.nodes k' = some a) :
    lookupNodeL (g.ensure_node k).nodes k' = some a := by
  unfold Graph.ensure_node
  cases hk : lookupNodeL g.nodes k
  · exact lookupNodeL_append_some _ _ _ _ h
  · exact h

theorem ensure_node_lookup_none_ne (g : Graph) (k k' : NodeId) (h : k' ≠ k)
    (h2 : lookupNodeL g.nodes k' = none) :
    lookupNodeL (g.ensure_node k).nodes k' = none := by
  unfold Graph.ensure_node
  cases hk : lookupNodeL g.nodes k
  · exact lookupNodeL_append_one_ne _ _ _ _ h h2
  · exact h2

theorem ensure_node_lookup_self_none (g : Graph) (k : NodeId)
    (h : lookupNodeL g.nodes k = none) :
    lookupNodeL (g.ensure_node k).nodes k = some NodeAttrs.empty := by
  unfold Graph.ensure_node
  rw [h]
  exact lookupNodeL_append_one_self _ _ _ h

theorem ensure_node_edges (g : Graph) (k : NodeId) :
    (g.ensure_node k).edges = g.edges := by
  unfold Graph.ensure_node
  cases lookupNodeL g.nodes k <;> rfl

theorem add_node_edges (g : Graph) (k : NodeId) (a : NodeAttrs) :
    (g.add_node k a).edges = g.edges := rfl

theorem addEdgeRaw_nodes (g : Graph) (u v : NodeId) (a : EdgeAttrs) :
    (addEdgeRaw g u v a).nodes = g.nodes := by
  unfold addEdgeRaw
  cases lookupEdgeL g.edges u v <;> rfl

theorem add_edge_nodes (g : Graph) (u v : NodeId) (a : EdgeAttrs) :
    (g.add_edge u v a).nodes = ((g.ensure_node u).ensure_node v).nodes := by
  unfold Graph.add_edge
  rw [addEdgeRaw_nodes]

theorem add_edge_lookupNode_some (g : Graph) (u v : NodeId) (a : EdgeAttrs)
    (k : NodeId) (b : NodeAttrs) (h : lookupNodeL g.nodes k = some b) :
    lookupNodeL (g.add_edge u v a).nodes k = some b := by
  rw [add_edge_nodes]
  exact ensure_node_lookup_some _ _ _ _ (ensure_node_lookup_some _ _ _ _ h)

theorem lookupEdgeL_set_self (l : List (NodeId × NodeId × EdgeAttrs)) (u v : NodeId)
    (a : EdgeAttrs) : lookupEdgeL (setEdgeL l u v a) u v = some a := by
  induction l with
  | nil => simp [setEdgeL, lookupEdgeL]
  | cons hd tl ih =>
    obtain ⟨u0, v0, a0⟩ := hd
    by_cases h : u0 = u ∧ v0 = v <;> simp [setEdgeL, lookupEdgeL, h, ih]

theorem lookupEdgeL_set_ne (l : List (NodeId × NodeId × EdgeAttrs)) (u v u' v' : NodeId)
    (a : EdgeAttrs) (h : ¬(u = u' ∧ v = v')) :
    lookupEdgeL (setEdgeL l u v a) u' v' = lookupEdgeL l u' v' := by
  induction l with
  | nil => simp [setEdgeL, lookupEdgeL, h]
  | cons hd tl ih =>
    obtain ⟨u0, v0, a0⟩ := hd
    simp only [setEdgeL]
    by_cases h0 : u0 = u ∧ v0 = v
    · obtain ⟨rfl, rfl⟩ := h0
      simp [lookupEdgeL, h]
    · rw [if_neg h0]
      by_cases h1 : u0 = u' ∧ v0 = v' <;> simp [lookupEdgeL, h1, ih]

theorem lookupEdgeL_append_some (l m : List (NodeId × NodeId × EdgeAttrs)) (u v : NodeId)
    (a : EdgeAttrs) (h : lookupEdgeL l u v = some a) : lookupEdgeL (l ++ m) u v = some a := by
  induction l with
  | nil => simp [lookupEdgeL] at h
  | cons hd tl ih =>
    obtain ⟨u0, v0, a0⟩ := hd
    by_cases h0 : u0 = u ∧ v0 = v <;> simp_all [lookupEdgeL, h0]

theorem lookupEdgeL_append_one_ne (l : List (NodeId × NodeId × EdgeAttrs)) (u v u' v' : NodeId)
    (a : EdgeAttrs) (h : ¬(u = u' ∧ v = v')) (h2 : lookupEdgeL l u' v' = none) :
    lookupEdgeL (l ++ [(u, v, a)]) u' v' = none := by
  induction l with
  | nil => simp [lookupEdgeL, h]
  | cons hd tl ih =>
    obtain ⟨u0, v0, a0⟩ := hd
    by_cases h0 : u0 = u' ∧ v0 = v' <;> simp_all [lookupEdgeL, h0]

theorem lookupEdgeL_append_one_self (l : List (NodeId × NodeId × EdgeAttrs)) (u v : NodeId)
    (a : EdgeAttrs) (h : lookupEdgeL l u v = none) :
    lookupEdgeL (l ++ [(u, v, a)]) u v = some a := by
  induction l with
  | nil => simp [lookupEdgeL]
  | cons hd tl ih =>
    obtain ⟨u0, v0, a0⟩ := hd
    by_cases h0 : u0 = u ∧ v0 = v <;> simp_all [lookupEdgeL, h0]

theorem addEdgeRaw_lookup_self (g : Graph) (u v : NodeId) (a : EdgeAttrs) :
    lookupEdgeL (addEdgeRaw g u v a).edges u v =
      some (match lookupEdgeL g.edges u v with
        | some old => old.update a
        | none => a) := by
  unfold addEdgeRaw
  cases h : lookupEdgeL g.edges u v with
  | none => exact lookupEdgeL_append_one_self _ _ _ _ h
  | some old => exact lookupEdgeL_set_self _ _ _ _

theorem addEdgeRaw_lookup_ne (g : Graph) (u v u' v' : NodeId) (a : EdgeAttrs)
    (h : ¬(u = u' ∧ v = v')) :
    lookupEdgeL (addEdgeRaw g u v a).edges u' v' = lookupEdgeL g.edges u' v' := by
  unfold addEdgeRaw
  cases h2 : lookupEdgeL g.edges u v with
  | none =>
    cases h3 : lookupEdgeL g.edges u' v' with
    | none => exact lookupEdgeL_append_one_ne _ _ _ _ _ _ h h3
    | some b => exact lookupEdgeL_append_some _ _ _ _ _ h3
  | some old => exact lookupEdgeL_set_ne _ _ _ _ _ _ h

theorem add_edge_lookup_self (g : Graph) (u v : NodeId) (a : EdgeAttrs) :
    lookupEdgeL (g.add_edge u v a).edges u v =
      some (match lookupEdgeL g.edges u v with
        | some old => old.update a
        | none => a) := by
  unfold Graph.add_edge
  rw [addEdgeRaw_lookup_self]
  rw [ensure_node_edges, ensure_node_edges]

theorem add_edge_lookup_ne (g : Graph) (u v u' v' : NodeId) (a : EdgeAttrs)
    (h : ¬(u = u' ∧ v = v')) :
    lookupEdgeL (g.add_edge u v a).edges u' v' = lookupEdgeL g.edges u' v' := by
  unfold Graph.add_edge
  rw [addEdgeRaw_lookup_ne _ _ _ _ _ _ h, ensure_node_edges, ensure_node_edges]

/-! ## Build-step lemmas -/

theorem build_steps (s : Snapshot) :
    build_graph_from_db s =
      addMadeByEdges (addBelongsToEdges (addRelationshipEdges (addBrandNodes
        (addCategoryNodes (s.products.foldl
          (fun g p => g.add_node (.pid p.id) (productNodeAttrs p)) Graph.emptyGraph)
          s.products) s.products) s.relationships) s.products) s.products := rfl

theorem addRelationshipEdges_cons (g : Graph) (r : RelRow) (rest : List RelRow) :
    addRelationshipEdges g (r :: rest) =
      addRelationshipEdges (g.add_edge (.pid r.source) (.pid r.target) (relEdgeAttrs r)) rest := rfl

theorem addBelongsToEdges_cons (g : Graph) (p : ProductRow) (ps : List ProductRow) :
    addBelongsToEdges g (p :: ps) =
      addBelongsToEdges
        (match p.category with
          | some c => if c = "" then g else g.add_edge (.pid p.id) (.category c) belongsAttrs
          | none => g) ps := rfl

theorem addMadeByEdges_cons (g : Graph) (p : ProductRow) (ps : List ProductRow) :
    addMadeByEdges g (p :: ps) =
      addMadeByEdges
        (match p.brand with
          | some b => if b = "" then g else g.add_edge (.pid p.id) (.brand b) madeByAttrs
          | none => g) ps := rfl

theorem add_edge_edge_isSome (g : Graph) (u v x y : NodeId) (a : EdgeAttrs)
    (h : (lookupEdgeL g.edges x y).isSome) :
    (lookupEdgeL (g.add_edge u v a).edges x y).isSome := by
  by_cases hk : u = x ∧ v = y
  · obtain ⟨rfl, rfl⟩ := hk
    rw [add_edge_lookup_self]
    rfl
  · rw [add_edge_lookup_ne _ _ _ _ _ _ hk]
    exact h

theorem addRelationshipEdges_edge_isSome_mono (rels : List RelRow) (g : Graph) (x y : NodeId)
    (h : (lookupEdgeL g.edges x y).isSome) :
    (lookupEdgeL (addRelationshipEdges g rels).edges x y).isSome := by
  induction rels generalizing g with
  | nil => exact h
  | cons r rest ih =>
    rw [addRelationshipEdges_cons]
    exact ih _ (add_edge_edge_isSome _ _ _ _ _ _ h)

theorem addBelongsToEdges_edge_isSome_mono (ps : List ProductRow) (g : Graph) (x y : NodeId)
    (h : (lookupEdgeL g.edges x y).isSome) :
    (lookupEdgeL (addBelongsToEdges g ps).edges x y).isSome := by
  induction ps generalizing g with
  | nil => exact h
  | cons p rest ih =>
    rw [addBelongsToEdges_cons]
    refine ih _ ?_
    cases hc : p.category with
    | none => exact h
    | some c =>
      by_cases he : c = ""
      · simpa [he] using h
      · simpa [he] using add_edge_edge_isSome _ _ _ _ _ _ h

theorem addMadeByEdges_edge_isSome_mono (ps : List ProductRow) (g : Graph) (x y : NodeId)
    (h : (lookupEdgeL g.edges x y).isSome) :
    (lookupEdgeL (addMadeByEdges g ps).edges x y).isSome := by
  induction ps generalizing g with
  | nil => exact h
  | cons p rest ih =>
    rw [addMadeByEdges_cons]
    refine ih _ ?_
    cases hb : p.brand with
    | none => exact h
    | some b =>
      by_cases he : b = ""
      · simpa [he] using h
      · simpa [he] using add_edge_edge_isSome _ _ _ _ _ _ h

theorem addRelationshipEdges_edge_isSome_mem (rels : List RelRow) (g : Graph) (r : RelRow)
    (hr : r ∈ rels) :
    (lookupEdgeL (addRelationshipEdges g rels).edges (.pid r.source) (.pid r.target)).isSome := by
  induction rels generalizing g with
  | nil => cases hr
  | cons r0 rest ih =>
    rw [addRelationshipEdges_cons]
    rcases List.mem_cons.mp hr with rfl | hmem
    · refine addRelationshipEdges_edge_isSome_mono _ _ _ _ ?_
      rw [add_edge_lookup_self]
      rfl
    · exact ih _ hmem

theorem ensure_node_lookup_self_isSome (g : Graph) (k : NodeId) :
    (lookupNodeL (g.ensure_node k).nodes k).isSome := by
  cases h : lookupNodeL g.nodes k with
  | none => rw [ensure_node_lookup_self_none _ _ h]; rfl
  | some a => rw [ensure_node_lookup_some _ _ _ _ h]; rfl

theorem add_edge_node_isSome_target (g : Graph) (u v : NodeId) (a : EdgeAttrs) :
    (lookupNodeL (g.add_edge u v a).nodes v).isSome := by
  rw [add_edge_nodes]
  exact ensure_node_lookup_self_isSome _ _

theorem add_edge_node_isSome_mono (g : Graph) (u v k : NodeId) (a : EdgeAttrs)
    (h : (lookupNodeL g.nodes k).isSome) :
    (lookupNodeL (g.add_edge u v a).nodes k).isSome := by
  cases h2 : lookupNodeL g.nodes k with
  | none => rw [h2] at h; cases h
  | some b => rw [add_edge_lookupNode_some _ _ _ _ _ _ h2]; rfl

theorem addRelationshipEdges_node_isSome_mono (rels : List RelRow) (g : Graph) (k : NodeId)
    (h : (lookupNodeL g.nodes k).isSome) :
    (lookupNodeL (addRelationshipEdges g rels).nodes k).isSome := by
  induction rels generalizing g with
  | nil => exact h
  | cons r rest ih =>
    rw [addRelationshipEdges_cons]
    exact ih _ (add_edge_node_isSome_mono _ _ _ _ _ h)

theorem addBelongsToEdges_node_isSome_mono (ps : List ProductRow) (g : Graph) (k : NodeId)
    (h : (lookupNodeL g.nodes k).isSome) :
    (lookupNodeL (addBelongsToEdges g ps).nodes k).isSome := by
  induction ps generalizing g with
  | nil => exact h
  | cons p rest ih =>
    rw [addBelongsToEdges_cons]
    refine ih _ ?_
    cases hc : p.category with
    | none => exact h
    | some c =>
      by_cases he : c = ""
      · simpa [he] using h
      · simpa [he] using add_edge_node_isSome_mono _ _ _ _ _ h

theorem addMadeByEdges_node_isSome_mono (ps : List ProductRow) (g : Graph) (k : NodeId)
    (h : (lookupNodeL g.nodes k).isSome) :
    (lookupNodeL (addMadeByEdges g ps).nodes k).isSome := by
  induction ps generalizing g with
  | nil => exact h
  | cons p rest ih =>
    rw [addMadeByEdges_cons]
    refine ih _ ?_
    cases hb : p.brand with
    | none => exact h
    | some b =>
      by_cases he : b = ""
      · simpa [he] using h
      · simpa [he] using add_edge_node_isSome_mono _ _ _ _ _ h

theorem addRelationshipEdges_node_isSome_mem (rels : List RelRow) (g : Graph) (r : RelRow)
    (hr : r ∈ rels) :
    (lookupNodeL (addRelationshipEdges g rels).nodes (.pid r.target)).isSome := by
  induction rels generalizing g with
  | nil => cases hr
  | cons r0 rest ih =>
    rw [addRelationshipEdges_cons]
    rcases List.mem_cons.mp hr with rfl | hmem
    · exact addRelationshipEdges_node_isSome_mono _ _ _
        (add_edge_node_isSome_target _ _ _ _)
    · exact ih _ hmem

/-! ## Dangling-target lemmas -/

theorem ensure2_node_empty (g : Graph) (u v k : NodeId)
    (h : lookupNodeL g.nodes k = none) (hk : k = u ∨ k = v) :
    lookupNodeL ((g.ensure_node u).ensure_node v).nodes k = some NodeAttrs.empty := by
  rcases hk with rfl | rfl
  · exact ensure_node_lookup_some _ _ _ _ (ensure_node_lookup_self_none _ _ h)
  · by_cases h2 : k = u
    · subst h2
      exact ensure_node_lookup_some _ _ _ _ (ensure_node_lookup_self_none _ _ h)
    · exact ensure_node_lookup_self_none _ _ (ensure_node_lookup_none_ne _ _ _ h2 h)

theorem add_edge_node_empty (g : Graph) (u v k : NodeId) (a : EdgeAttrs)
    (h : lookupNodeL g.nodes k = none) (hk : k = u ∨ k = v) :
    lookupNodeL (g.add_edge u v a).nodes k = some NodeAttrs.empty := by
  rw [add_edge_nodes]
  exact ensure2_node_empty _ _ _ _ h hk

theorem add_edge_node_none (g : Graph) (u v k : NodeId) (a : EdgeAttrs)
    (h : lookupNodeL g.nodes k = none) (hu : k ≠ u) (hv : k ≠ v) :
    lookupNodeL (g.add_edge u v a).nodes k = none := by
  rw [add_edge_nodes]
  exact ensure_node_lookup_none_ne _ _ _ hv (ensure_node_lookup_none_ne _ _ _ hu h)

theorem addRelationshipEdges_node_some (rels : List RelRow) (g : Graph) (k : NodeId)
    (b : NodeAttrs) (h : lookupNodeL g.nodes k = some b) :
    lookupNodeL (addRelationshipEdges g rels).nodes k = some b := by
  induction rels generalizing g with
  | nil => exact h
  | cons r rest ih =>
    rw [addRelationshipEdges_cons]
    exact ih _ (add_edge_lookupNode_some _ _ _ _ _ _ h)

theorem addBelongsToEdges_node_some (ps : List ProductRow) (g : Graph) (k : NodeId)
    (b : NodeAttrs) (h : lookupNodeL g.nodes k = some b) :
    lookupNodeL (addBelongsToEdges g ps).nodes k = some b := by
  induction ps generalizing g with
  | nil => exact h
  | cons p rest ih =>
    rw [addBelongsToEdges_cons]
    refine ih _ ?_
    cases hc : p.category with
    | none => exact h
    | some c =>
      by_cases he : c = ""
      · simpa [he] using h
      · simpa [he] using add_edge_lookupNode_some _ _ _ _ _ _ h

theorem addMadeByEdges_node_some (ps : List ProductRow) (g : Graph) (k : NodeId)
    (b : NodeAttrs) (h : lookupNodeL g.nodes k = some b) :
    lookupNodeL (addMadeByEdges g ps).nodes k = some b := by
  induction ps generalizing g with
  | nil => exact h
  | cons p rest ih =>
    rw [addMadeByEdges_cons]
    refine ih _ ?_
    cases hb : p.brand with
    | none => exact h
    | some b0 =>
      by_cases he : b0 = ""
      · simpa [he] using h
      · simpa [he] using add_edge_lookupNode_some _ _ _ _ _ _ h

theorem addRelationshipEdges_node_empty (rels : List RelRow) (g : Graph) (t : Int)
    (h : lookupNodeL g.nodes (.pid t) = none) (hex : ∃ r ∈ rels, r.target = t) :
    lookupNodeL (addRelationshipEdges g rels).nodes (.pid t) = some NodeAttrs.empty := by
  induction rels generalizing g with
  | nil => obtain ⟨r, hr, -⟩ := hex; cases hr
  | cons r0 rest ih =>
    rw [addRelationshipEdges_cons]
    by_cases hit : NodeId.pid t = NodeId.pid r0.source ∨ NodeId.pid t = NodeId.pid r0.target
    · exact addRelationshipEdges_node_some _ _ _ _ (add_edge_node_empty _ _ _ _ _ h hit)
    · push_neg at hit
      obtain ⟨r, hr, hrt⟩ := hex
      rcases List.mem_cons.mp hr with rfl | hmem
      · exact absurd (congrArg NodeId.pid hrt.symm) hit.2
      · exact ih _ (add_edge_node_none _ _ _ _ _ h hit.1 hit.2) ⟨r, hmem, hrt⟩

theorem prodNodeFold_lookup_ne (ps : List ProductRow) (g : Graph) (k : NodeId)
    (h : ∀ p ∈ ps, NodeId.pid p.id ≠ k) :
    lookupNodeL (ps.foldl (fun g p => g.add_node (.pid p.id) (productNodeAttrs p)) g).nodes k =
      lookupNodeL g.nodes k := by
  induction ps generalizing g with
  | nil => rfl
  | cons p rest ih =>
    rw [List.foldl_cons, ih _ (fun q hq => h q (List.mem_cons_of_mem _ hq))]
    exact lookupNodeL_set_ne _ _ _ _ (fun h2 => h p (List.mem_cons_self _ _) h2.symm)

theorem catNodeFold_lookup_pid (cs : List String) (g : Graph) (t : Int) :
    lookupNodeL (cs.foldl
      (fun g c => if c = "" then g else g.add_node (.category c) (.categoryNode c)) g).nodes
      (.pid t) = lookupNodeL g.nodes (.pid t) := by
  induction cs generalizing g with
  | nil => rfl
  | cons c rest ih =>
    rw [List.foldl_cons, ih]
    by_cases he : c = ""
    · rw [if_pos he]
    · rw [if_neg he]
      exact lookupNodeL_set_ne _ _ _ _ (fun h2 => NodeId.noConfusion h2)

theorem brandNodeFold_lookup_pid (bs : List String) (g : Graph) (t : Int) :
    lookupNodeL (bs.foldl
      (fun g b => if b = "" then g else g.add_node (.brand b) (.brandNode b)) g).nodes
      (.pid t) = lookupNodeL g.nodes (.pid t) := by
  induction bs generalizing g with
  | nil => rfl
  | cons b rest ih =>
    rw [List.foldl_cons, ih]
    by_cases he : b = ""
    · rw [if_pos he]
    · rw [if_neg he]
      exact lookupNodeL_set_ne _ _ _ _ (fun h2 => NodeId.noConfusion h2)

theorem hasProduct_false_iff (ps : List ProductRow) (t : Int) :
    hasProduct ps t = false ↔ ∀ p ∈ ps, p.id ≠ t := by
  simp [hasProduct]

theorem addCategoryNodes_def (g : Graph) (ps : List ProductRow) :
    addCategoryNodes g ps = (distinctVals (ps.map (·.category))).foldl
      (fun g c => if c = "" then g else g.add_node (.category c) (.categoryNode c)) g := rfl

theorem addBrandNodes_def (g : Graph) (ps : List ProductRow) :
    addBrandNodes g ps = (distinctVals (ps.map (·.brand))).foldl
      (fun g b => if b = "" then g else g.add_node (.brand b) (.brandNode b)) g := rfl

/-! ## Claim C7 -/

/-- Claim C7 counterexample: with one product (id 1) and a persisted
relationship `1 → 99` whose target is not in the catalog, the build does not
skip the record: NetworkX `add_edge` implicitly creates node 99 (with an
empty attribute dict) and adds the edge, so the resulting graph does contain
a node and an edge for the dangling target. -/
theorem claim_C7_counterexample :
    lookupNodeL (build_graph_from_db cx_snapshot7).nodes (NodeId.pid 99) = some NodeAttrs.empty ∧
    (lookupEdgeL (build_graph_from_db cx_snapshot7).edges (NodeId.pid 1) (NodeId.pid 99)).isSome = true ∧
    hasProduct cx_snapshot7.products 99 = false := by
  refine ⟨rfl, rfl, rfl⟩

/-- Claim C7 (amended): the build never fails and tolerates dangling
targets, but by adding rather than skipping: for every persisted
relationship record the edge `source → target` is present in the built
graph and the target is a node; when the target id is not a catalog
product, that node carries an empty attribute dict (implicitly created by
`add_edge`). -/
theorem claim_C7_theorem (s : Snapshot) (r : RelRow) (hr : r ∈ s.relationships) :
    (lookupEdgeL (build_graph_from_db s).edges (.pid r.source) (.pid r.target)).isSome = true ∧
    (lookupNodeL (build_graph_from_db s).nodes (.pid r.target)).isSome = true ∧
    (hasProduct s.products r.target = false →
      lookupNodeL (build_graph_from_db s).nodes (.pid r.target) = some NodeAttrs.empty) := by
  rw [build_steps]
  refine ⟨?_, ?_, ?_⟩
  · exact addMadeByEdges_edge_isSome_mono _ _ _ _
      (addBelongsToEdges_edge_isSome_mono _ _ _ _
        (addRelationshipEdges_edge_isSome_mem _ _ _ hr))
  · exact addMadeByEdges_node_isSome_mono _ _ _
      (addBelongsToEdges_node_isSome_mono _ _ _
        (addRelationshipEdges_node_isSome_mem _ _ _ hr))
  · intro hfalse
    have hids : ∀ p ∈ s.products, p.id ≠ r.target := (hasProduct_false_iff _ _).mp hfalse
    have e1 : lookupNodeL (s.products.foldl
        (fun g p => g.add_node (.pid p.id) (productNodeAttrs p)) Graph.emptyGraph).nodes
        (.pid r.target) = none := by
      rw [prodNodeFold_lookup_ne _ _ _
        (fun p hp h2 => hids p hp (by exact NodeId.pid.inj h2))]
      rfl
    have e2 : lookupNodeL (addBrandNodes (addCategoryNodes (s.products.foldl
        (fun g p => g.add_node (.pid p.id) (productNodeAttrs p)) Graph.emptyGraph)
        s.products) s.products).nodes (.pid r.target) = none := by
      rw [addBrandNodes_def, brandNodeFold_lookup_pid, addCategoryNodes_def,
        catNodeFold_lookup_pid]
      exact e1
    exact addMadeByEdges_node_some _ _ _ _
      (addBelongsToEdges_node_some _ _ _ _
        (addRelationshipEdges_node_empty _ _ _ e2 ⟨r, hr, rfl⟩))

/-- Claim C7 witness: the dangling-relationship snapshot again, through the
general theorem. -/
theorem claim_C7_witness :
    (lookupEdgeL (build_graph_from_db cx_snapshot7).edges (.pid 1) (.pid 99)).isSome = true ∧
    (lookupNodeL (build_graph_from_db cx_snapshot7).nodes (.pid 99)).isSome = true ∧
    (hasProduct cx_snapshot7.products 99 = false →
      lookupNodeL (build_graph_from_db cx_snapshot7).nodes (.pid 99) = some NodeAttrs.empty) :=
  claim_C7_theorem cx_snapshot7 ⟨1, 99, "SIMILAR_TO", some (9/10 : Rat), some "close match"⟩
    (List.Mem.head _)

/-! ## Structural-edge lemmas (towards claim C9) -/

theorem prodNodeFold_edges (ps : List ProductRow) (g : Graph) :
    (ps.foldl (fun g p => g.add_node (.pid p.id) (productNodeAttrs p)) g).edges = g.edges := by
  induction ps generalizing g with
  | nil => rfl
  | cons p rest ih => rw [List.foldl_cons, ih, add_node_edges]

theorem strNodeFold_edges (f : String → NodeId) (h : String → NodeAttrs) (cs : List String)
    (g : Graph) :
    (cs.foldl (fun g c => if c = "" then g else g.add_node (f c) (h c)) g).edges = g.edges := by
  induction cs generalizing g with
  | nil => rfl
  | cons c rest ih =>
    rw [List.foldl_cons, ih]
    by_cases he : c = ""
    · rw [if_pos he]
    · rw [if_neg he, add_node_edges]

theorem addRelEdges_lookup_cat (rels : List RelRow) (g : Graph) (u : NodeId) (c : String) :
    lookupEdgeL (addRelationshipEdges g rels).edges u (.category c) =
      lookupEdgeL g.edges u (.category c) := by
  induction rels generalizing g with
  | nil => rfl
  | cons r rest ih =>
    rw [addRelationshipEdges_cons, ih,
      add_edge_lookup_ne _ _ _ _ _ _ (fun h2 => NodeId.noConfusion h2.2)]

theorem addRelEdges_lookup_brand (rels : List RelRow) (g : Graph) (u : NodeId) (b : String) :
    lookupEdgeL (addRelationshipEdges g rels).edges u (.brand b) =
      lookupEdgeL g.edges u (.brand b) := by
  induction rels generalizing g with
  | nil => rfl
  | cons r rest ih =>
    rw [addRelationshipEdges_cons, ih,
      add_edge_lookup_ne _ _ _ _ _ _ (fun h2 => NodeId.noConfusion h2.2)]

theorem addMadeBy_lookup_cat (ps : List ProductRow) (g : Graph) (u : NodeId) (c : String) :
    lookupEdgeL (addMadeByEdges g ps).edges u (.category c) =
      lookupEdgeL g.edges u (.category c) := by
  induction ps generalizing g with
  | nil => rfl
  | cons p rest ih =>
    rw [addMadeByEdges_cons, ih]
    cases hb : p.brand with
    | none => rfl
    | some b0 =>
      dsimp only
      by_cases he : b0 = ""
      · rw [if_pos he]
      · rw [if_neg he, add_edge_lookup_ne _ _ _ _ _ _ (fun h2 => NodeId.noConfusion h2.2)]

theorem addBelongs_lookup_brand (ps : List ProductRow) (g : Graph) (u : NodeId) (b : String) :
    lookupEdgeL (addBelongsToEdges g ps).edges u (.brand b) =
      lookupEdgeL g.edges u (.brand b) := by
  induction ps generalizing g with
  | nil => rfl
  | cons p rest ih =>
    rw [addBelongsToEdges_cons, ih]
    cases hc : p.category with
    | none => rfl
    | some c0 =>
      dsimp only
      by_cases he : c0 = ""
      · rw [if_pos he]
      · rw [if_neg he, add_edge_lookup_ne _ _ _ _ _ _ (fun h2 => NodeId.noConfusion h2.2)]

theorem belongsAttrs_update : belongsAttrs.update belongsAttrs = belongsAttrs := rfl

theorem madeByAttrs_update : madeByAttrs.update madeByAttrs = madeByAttrs := rfl

theorem addBelongs_lookup_pres (ps : List ProductRow) (g : Graph) (i : Int) (c : String)
    (h : lookupEdgeL g.edges (.pid i) (.category c) = some belongsAttrs) :
    lookupEdgeL (addBelongsToEdges g ps).edges (.pid i) (.category c) = some belongsAttrs := by
  induction ps generalizing g with
  | nil => exact h
  | cons p rest ih =>
    rw [addBelongsToEdges_cons]
    refine ih _ ?_
    cases hc : p.category with
    | none => exact h
    | some c0 =>
      dsimp only
      by_cases he : c0 = ""
      · rw [if_pos he]; exact h
      · rw [if_neg he]
        by_cases hk : NodeId.pid p.id = NodeId.pid i ∧ NodeId.category c0 = NodeId.category c
        · obtain ⟨hk1, hk2⟩ := hk
          rw [hk1, hk2, add_edge_lookup_self, h]
          rfl
        · rw [add_edge_lookup_ne _ _ _ _ _ _ hk]
          exact h

theorem addBelongs_lookup_establish (ps : List ProductRow) (g : Graph) (i : Int) (c : String)
    (hcne : c ≠ "") (h : lookupEdgeL g.edges (.pid i) (.category c) = none)
    (hex : ∃ p ∈ ps, p.id = i ∧ p.category = some c) :
    lookupEdgeL (addBelongsToEdges g ps).edges (.pid i) (.category c) = some belongsAttrs := by
  induction ps generalizing g with
  | nil => obtain ⟨p, hp, -⟩ := hex; cases hp
  | cons p0 rest ih =>
    rw [addBelongsToEdges_cons]
    by_cases hit : p0.id = i ∧ p0.category = some c
    · obtain ⟨hk1, hk2⟩ := hit
      rw [hk2]
      dsimp only
      rw [if_neg hcne, hk1]
      refine addBelongs_lookup_pres _ _ _ _ ?_
      rw [add_edge_lookup_self, h]
    · have hstep : lookupEdgeL
          (match p0.category with
            | some c0 => if c0 = "" then g
                else g.add_edge (.pid p0.id) (.category c0) belongsAttrs
            | none => g).edges (.pid i) (.category c) = none := by
        cases hc0 : p0.category with
        | none => exact h
        | some c0 =>
          dsimp only
          by_cases he : c0 = ""
          · rw [if_pos he]; exact h
          · rw [if_neg he]
            rw [add_edge_lookup_ne _ _ _ _ _ _ (fun hk => hit
              ⟨NodeId.pid.inj hk.1, by rw [hc0, NodeId.category.inj hk.2]⟩)]
            exact h
      obtain ⟨p, hp, hpi, hpc⟩ := hex
      rcases List.mem_cons.mp hp with rfl | hmem
      · exact absurd ⟨hpi, hpc⟩ hit
      · exact ih _ hstep ⟨p, hmem, hpi, hpc⟩

theorem addMadeBy_lookup_pres (ps : List ProductRow) (g : Graph) (i : Int) (b : String)
    (h : lookupEdgeL g.edges (.pid i) (.brand b) = some madeByAttrs) :
    lookupEdgeL (addMadeByEdges g ps).edges (.pid i) (.brand b) = some madeByAttrs := by
  induction ps generalizing g with
  | nil => exact h
  | cons p rest ih =>
    rw [addMadeByEdges_cons]
    refine ih _ ?_
    cases hb : p.brand with
    | none => exact h
    | some b0 =>
      dsimp only
      by_cases he : b0 = ""
      · rw [if_pos he]; exact h
      · rw [if_neg he]
        by_cases hk : NodeId.pid p.id = NodeId.pid i ∧ NodeId.brand b0 = NodeId.brand b
        · obtain ⟨hk1, hk2⟩ := hk
          rw [hk1, hk2, add_edge_lookup_self, h]
          rfl
        · rw [add_edge_lookup_ne _ _ _ _ _ _ hk]
          exact h

theorem addMadeBy_lookup_establish (ps : List ProductRow) (g : Graph) (i : Int) (b : String)
    (hbne : b ≠ "") (h : lookupEdgeL g.edges (.pid i) (.brand b) = none)
    (hex : ∃ p ∈ ps, p.id = i ∧ p.brand = some b) :
    lookupEdgeL (addMadeByEdges g ps).edges (.pid i) (.brand b) = some madeByAttrs := by
  induction ps generalizing g with
  | nil => obtain ⟨p, hp, -⟩ := hex; cases hp
  | cons p0 rest ih =>
    rw [addMadeByEdges_cons]
    by_cases hit : p0.id = i ∧ p0.brand = some b
    · obtain ⟨hk1, hk2⟩ := hit
      rw [hk2]
      dsimp only
      rw [if_neg hbne, hk1]
      refine addMadeBy_lookup_pres _ _ _ _ ?_
      rw [add_edge_lookup_self, h]
    · have hstep : lookupEdgeL
          (match p0.brand with
            | some b0 => if b0 = "" then g
                else g.add_edge (.pid p0.id) (.brand b0) madeByAttrs
            | none => g).edges (.pid i) (.brand b) = none := by
        cases hb0 : p0.brand with
        | none => exact h
        | some b0 =>
          dsimp only
          by_cases he : b0 = ""
          · rw [if_pos he]; exact h
          · rw [if_neg he]
            rw [add_edge_lookup_ne _ _ _ _ _ _ (fun hk => hit
              ⟨NodeId.pid.inj hk.1, by rw [hb0, NodeId.brand.inj hk.2]⟩)]
            exact h
      obtain ⟨p, hp, hpi, hpb⟩ := hex
      rcases List.mem_cons.mp hp with rfl | hmem
      · exact absurd ⟨hpi, hpb⟩ hit
      · exact ih _ hstep ⟨p, hmem, hpi, hpb⟩

/-! ## Edge-key uniqueness and counting -/

theorem lookupEdgeL_none_iff (l : List (NodeId × NodeId × EdgeAttrs)) (u v : NodeId) :
    lookupEdgeL l u v = none ↔ (u, v) ∉ edgeKeys l := by
  induction l with
  | nil => simp [lookupEdgeL, edgeKeys]
  | cons hd tl ih =>
    obtain ⟨u0, v0, a0⟩ := hd
    by_cases h0 : u0 = u ∧ v0 = v
    · obtain ⟨rfl, rfl⟩ := h0
      simp [lookupEdgeL, edgeKeys]
    · have : (u, v) ≠ (u0, v0) := by
        intro h2
        exact h0 ⟨congrArg Prod.fst h2.symm, congrArg Prod.snd h2.symm⟩
      simp [lookupEdgeL, edgeKeys, h0, ih, this]

theorem setEdgeL_keys (l : List (NodeId × NodeId × EdgeAttrs)) (u v : NodeId)
    (a b : EdgeAttrs) (h : lookupEdgeL l u v = some b) :
    edgeKeys (setEdgeL l u v a) = edgeKeys l := by
  induction l with
  | nil => simp [lookupEdgeL] at h
  | cons hd tl ih =>
    obtain ⟨u0, v0, a0⟩ := hd
    by_cases h0 : u0 = u ∧ v0 = v
    · obtain ⟨rfl, rfl⟩ := h0
      simp [setEdgeL, edgeKeys]
    · rw [lookupEdgeL, if_neg h0] at h
      simp only [setEdgeL, if_neg h0, edgeKeys, List.map_cons]
      exact congrArg (List.cons _) (ih h)

theorem add_edge_edges_cases (g : Graph) (u v : NodeId) (a : EdgeAttrs) :
    (g.add_edge u v a).edges =
      match lookupEdgeL g.edges u v with
      | some old => setEdgeL g.edges u v (old.update a)
      | none => g.edges ++ [(u, v, a)] := by
  unfold Graph.add_edge addEdgeRaw
  simp only [ensure_node_edges]
  cases h : lookupEdgeL g.edges u v <;> simp [h]

theorem add_edge_keysNodup (g : Graph) (u v : NodeId) (a : EdgeAttrs)
    (h : (edgeKeys g.edges).Nodup) : (edgeKeys (g.add_edge u v a).edges).Nodup := by
  rw [add_edge_edges_cases]
  cases h2 : lookupEdgeL g.edges u v with
  | some old =>
    rw [setEdgeL_keys _ _ _ _ _ h2]
    exact h
  | none =>
    have hnotin := (lookupEdgeL_none_iff _ _ _).mp h2
    rw [show edgeKeys (g.edges ++ [(u, v, a)]) = edgeKeys g.edges ++ [(u, v)] from by
      simp [edgeKeys]]
    refine List.Nodup.append h (List.nodup_singleton _) ?_
    intro x hx hy
    simp only [List.mem_singleton] at hy
    subst hy
    exact hnotin hx

theorem addRelationshipEdges_keysNodup (rels : List RelRow) (g : Graph)
    (h : (edgeKeys g.edges).Nodup) :
    (edgeKeys (addRelationshipEdges g rels).edges).Nodup := by
  induction rels generalizing g with
  | nil => exact h
  | cons r rest ih =>
    rw [addRelationshipEdges_cons]
    exact ih _ (add_edge_keysNodup _ _ _ _ h)

theorem addBelongsToEdges_keysNodup (ps : List ProductRow) (g : Graph)
    (h : (edgeKeys g.edges).Nodup) :
    (edgeKeys (addBelongsToEdges g ps).edges).Nodup := by
  induction ps generalizing g with
  | nil => exact h
  | cons p rest ih =>
    rw [addBelongsToEdges_cons]
    refine ih _ ?_
    cases hc : p.category with
    | none => exact h
    | some c0 =>
      dsimp only
      by_cases he : c0 = ""
      · rw [if_pos he]; exact h
      · rw [if_neg he]; exact add_edge_keysNodup _ _ _ _ h

theorem addMadeByEdges_keysNodup (ps : List ProductRow) (g : Graph)
    (h : (edgeKeys g.edges).Nodup) :
    (edgeKeys (addMadeByEdges g ps).edges).Nodup := by
  induction ps generalizing g with
  | nil => exact h
  | cons p rest ih =>
    rw [addMadeByEdges_cons]
    refine ih _ ?_
    cases hb : p.brand with
    | none => exact h
    | some b0 =>
      dsimp only
      by_cases he : b0 = ""
      · rw [if_pos he]; exact h
      · rw [if_neg he]; exact add_edge_keysNodup _ _ _ _ h

theorem build_base_edges (s : Snapshot) :
    (addBrandNodes (addCategoryNodes (s.products.foldl
      (fun g p => g.add_node (.pid p.id) (productNodeAttrs p)) Graph.emptyGraph)
      s.products) s.products).edges = [] := by
  rw [addBrandNodes_def, strNodeFold_edges, addCategoryNodes_def, strNodeFold_edges,
    prodNodeFold_edges]
  rfl

theorem build_keysNodup (s : Snapshot) :
    (edgeKeys (build_graph_from_db s).edges).Nodup := by
  rw [build_steps]
  refine addMadeByEdges_keysNodup _ _ (addBelongsToEdges_keysNodup _ _
    (addRelationshipEdges_keysNodup _ _ ?_))
  rw [build_base_edges]
  simp [edgeKeys]

theorem countEdges_zero_of_notin (l : List (NodeId × NodeId × EdgeAttrs)) (u v : NodeId)
    (h : (u, v) ∉ edgeKeys l) : countEdges l u v = 0 := by
  induction l with
  | nil => rfl
  | cons hd tl ih =>
    obtain ⟨u0, v0, a0⟩ := hd
    simp only [edgeKeys, List.map_cons, List.mem_cons, not_or] at h
    by_cases hu : u0 = u
    · by_cases hv : v0 = v
      · exact absurd (by simp [hu, hv]) h.1
      · rw [show countEdges ((u0, v0, a0) :: tl) u v = countEdges tl u v from by
          simp [countEdges, List.filter_cons, hv]]
        exact ih h.2
    · rw [show countEdges ((u0, v0, a0) :: tl) u v = countEdges tl u v from by
        simp [countEdges, List.filter_cons, hu]]
      exact ih h.2

theorem countEdges_one (l : List (NodeId × NodeId × EdgeAttrs)) (u v : NodeId) (b : EdgeAttrs)
    (hn : (edgeKeys l).Nodup) (h : lookupEdgeL l u v = some b) : countEdges l u v = 1 := by
  induction l with
  | nil => simp [lookupEdgeL] at h
  | cons hd tl ih =>
    obtain ⟨u0, v0, a0⟩ := hd
    have hn2 := List.nodup_cons.mp (show ((u0, v0) :: edgeKeys tl).Nodup from hn)
    by_cases h0 : u0 = u ∧ v0 = v
    · obtain ⟨rfl, rfl⟩ := h0
      have h1 : countEdges tl u0 v0 = 0 := countEdges_zero_of_notin _ _ _ hn2.1
      simp only [countEdges] at h1 ⊢
      simp [List.filter_cons, h1]
    · rw [lookupEdgeL, if_neg h0] at h
      rw [show countEdges ((u0, v0, a0) :: tl) u v = countEdges tl u v from by
        rcases not_and_or.mp h0 with hu | hv
        · simp [countEdges, List.filter_cons, hu]
        · simp [countEdges, List.filter_cons, hv]]
      exact ih hn2.2 h

/-! ## Claim C9 -/

/-- Claim C9 counterexample: a product whose category is present but the
empty string (non-absent in the claim's sense) gets **no** `BELONGS_TO`
edge at all — the build guards with Python truthiness (`if row['category']`),
not just non-NULL — while its brand edge shows the build ran. -/
theorem claim_C9_counterexample :
    edgesFromWithType (build_graph_from_db cx_snapshot9) (NodeId.pid 1) "BELONGS_TO" = [] ∧
    cx_snapshot9.products.map (fun p => p.category) = [some ""] ∧
    countEdges (build_graph_from_db cx_snapshot9).edges (NodeId.pid 1) (NodeId.brand "Acme") = 1 :=
  ⟨rfl, rfl, rfl⟩

/-- Claim C9 (amended): for every product with a non-absent **and non-empty**
category and brand, the built graph has exactly one edge from the product to
its category node, typed `BELONGS_TO`, and exactly one to its brand node,
typed `MADE_BY`; and a rebuild discards any previous graph (`clear()`), so
any number of consecutive builds yields the same graph — structural edges
are regenerated, never accumulated. -/
theorem claim_C9_theorem (s : Snapshot) (p : ProductRow) (hp : p ∈ s.products)
    (c b : String) (hc : p.category = some c) (hcne : c ≠ "")
    (hb : p.brand = some b) (hbne : b ≠ "") :
    lookupEdgeL (build_graph_from_db s).edges (.pid p.id) (.category c) = some belongsAttrs ∧
    countEdges (build_graph_from_db s).edges (.pid p.id) (.category c) = 1 ∧
    lookupEdgeL (build_graph_from_db s).edges (.pid p.id) (.brand b) = some madeByAttrs ∧
    countEdges (build_graph_from_db s).edges (.pid p.id) (.brand b) = 1 ∧
    (∀ g : Graph, rebuild g s = build_graph_from_db s) := by
  have hcat : lookupEdgeL (build_graph_from_db s).edges (.pid p.id) (.category c) =
      some belongsAttrs := by
    rw [build_steps, addMadeBy_lookup_cat]
    refine addBelongs_lookup_establish _ _ _ _ hcne ?_ ⟨p, hp, rfl, hc⟩
    rw [addRelEdges_lookup_cat, build_base_edges]
    rfl
  have hbrand : lookupEdgeL (build_graph_from_db s).edges (.pid p.id) (.brand b) =
      some madeByAttrs := by
    rw [build_steps]
    refine addMadeBy_lookup_establish _ _ _ _ hbne ?_ ⟨p, hp, rfl, hb⟩
    rw [addBelongs_lookup_brand, addRelEdges_lookup_brand, build_base_edges]
    rfl
  exact ⟨hcat, countEdges_one _ _ _ _ (build_keysNodup s) hcat, hbrand,
    countEdges_one _ _ _ _ (build_keysNodup s) hbrand, fun g => rfl⟩

/-- Claim C9 witness: one product with category "Tools" and brand "Acme". -/
theorem claim_C9_witness :
    lookupEdgeL (build_graph_from_db w_snapshot9).edges (.pid 1) (.category "Tools") =
      some belongsAttrs ∧
    countEdges (build_graph_from_db w_snapshot9).edges (.pid 1) (.category "Tools") = 1 ∧
    lookupEdgeL (build_graph_from_db w_snapshot9).edges (.pid 1) (.brand "Acme") =
      some madeByAttrs ∧
    countEdges (build_graph_from_db w_snapshot9).edges (.pid 1) (.brand "Acme") = 1 ∧
    (∀ g : Graph, rebuild g w_snapshot9 = build_graph_from_db w_snapshot9) :=
  claim_C9_theorem w_snapshot9 ⟨1, "SKU1", "Widget", some "Tools", some "Acme", none, none, none⟩
    (List.Mem.head _) "Tools" "Acme" rfl (by decide) rfl (by decide)

/-! ## Store upsert lemmas (towards claim C6) -/

theorem filter_eq_after_ne (st : List RelRow) (k : Int × Int × String) :
    (st.filter (fun x => decide (tripleKey x ≠ k))).filter
      (fun x => decide (tripleKey x = k)) = [] := by
  induction st with
  | nil => rfl
  | cons hd tl ih =>
    by_cases h : tripleKey hd = k <;> simp [List.filter_cons, h, ih]

theorem rowsWithTriple_upsert_self (st : List RelRow) (r : RelRow) :
    rowsWithTriple (upsert st r) (tripleKey r) = [r] := by
  unfold rowsWithTriple upsert
  rw [List.filter_append, filter_eq_after_ne]
  simp

theorem filter_eq_of_ne (tl : List RelRow) (k kr : Int × Int × String) (h : k ≠ kr) :
    (tl.filter (fun x => decide (tripleKey x ≠ kr))).filter
      (fun x => decide (tripleKey x = k)) =
    tl.filter (fun x => decide (tripleKey x = k)) := by
  rw [List.filter_filter]
  refine List.filter_congr ?_
  intro a ha
  by_cases h2 : tripleKey a = k
  · have h3 : tripleKey a ≠ kr := fun h4 => h (h2.symm.trans h4)
    simp [h2, h3, h]
  · simp [h2]

theorem rowsWithTriple_upsert_ne (st : List RelRow) (r : RelRow) (k : Int × Int × String)
    (h : k ≠ tripleKey r) : rowsWithTriple (upsert st r) k = rowsWithTriple st k := by
  unfold rowsWithTriple upsert
  rw [List.filter_append]
  have h1 : ([r].filter (fun x => decide (tripleKey x = k))) = [] := by
    simp [Ne.symm h]
  rw [h1, List.append_nil]
  exact filter_eq_of_ne st k (tripleKey r) h

theorem upsert_keys_nodup (st : List RelRow) (r : RelRow)
    (h : (st.map tripleKey).Nodup) : ((upsert st r).map tripleKey).Nodup := by
  unfold upsert
  rw [List.map_append]
  refine List.Nodup.append ?_ (List.nodup_singleton _) ?_
  · exact ((List.filter_sublist st).map tripleKey).nodup h
  · intro x hx hy
    simp only [List.map_cons, List.map_nil, List.mem_singleton] at hy
    subst hy
    obtain ⟨y, hy1, hy2⟩ := List.mem_map.mp hx
    have := List.of_mem_filter hy1
    rw [hy2] at this
    simp at this

theorem foldl_upsert_keys_nodup (rs : List RelRow) (st : List RelRow)
    (h : (st.map tripleKey).Nodup) : ((rs.foldl upsert st).map tripleKey).Nodup := by
  induction rs generalizing st with
  | nil => exact h
  | cons r rest ih => exact ih _ (upsert_keys_nodup _ _ h)

theorem mem_upsert_self (st : List RelRow) (r : RelRow) : r ∈ upsert st r :=
  List.mem_append_right _ (List.mem_singleton_self _)

theorem mem_upsert_of_ne (st : List RelRow) (r x : RelRow)
    (hx : x ∈ st) (h : tripleKey x ≠ tripleKey r) : x ∈ upsert st r :=
  List.mem_append_left _ (List.mem_filter.mpr ⟨hx, by simpa using h⟩)

/-! ## Claim C6 -/

/-- Claim C6: the relationship store keeps at most one row per ordered
`(source, target, relationshipType)` triple.  In every store reachable by
upserts from a unique-triple store (rebuilds read the store and never write
it), triples stay unique; upserting the same triple twice leaves exactly the
later row (hence the later score) as the only row with that triple; and two
rows differing only in relationship type coexist.  The uniqueness constraint
behind `INSERT OR REPLACE` is modelled from the spec because `schema.sql` is
not under src/. -/
theorem claim_C6_theorem (st rs : List RelRow) (h : (st.map tripleKey).Nodup) :
    ((rs.foldl upsert st).map tripleKey).Nodup ∧
    (∀ r1 r2 : RelRow, tripleKey r1 = tripleKey r2 →
      rowsWithTriple (upsert (upsert st r1) r2) (tripleKey r2) = [r2]) ∧
    (∀ r1 r2 : RelRow, r1.source = r2.source → r1.target = r2.target →
      r1.relationship_type ≠ r2.relationship_type →
      r1 ∈ upsert (upsert st r1) r2 ∧ r2 ∈ upsert (upsert st r1) r2) := by
  refine ⟨foldl_upsert_keys_nodup _ _ h, ?_, ?_⟩
  · intro r1 r2 _
    exact rowsWithTriple_upsert_self _ _
  · intro r1 r2 hs ht hty
    have hk : tripleKey r1 ≠ tripleKey r2 := by
      intro h2
      exact hty (congrArg (fun k => k.2.2) h2)
    exact ⟨mem_upsert_of_ne _ _ _ (mem_upsert_self _ _) hk, mem_upsert_self _ _⟩

/-- Claim C6 witness: upserting (1,2,SIMILAR_TO) at score 0.7 then 0.9
leaves exactly the 0.9 row; a (1,2,COMPLEMENTS) row coexists with the
(1,2,SIMILAR_TO) row. -/
theorem claim_C6_witness :
    rowsWithTriple (upsert (upsert [] w_row1) w_row2) (tripleKey w_row2) = [w_row2] ∧
    (w_row1 ∈ upsert (upsert [] w_row1) w_row3 ∧ w_row3 ∈ upsert (upsert [] w_row1) w_row3) :=
  ⟨(claim_C6_theorem [] [] (by decide)).2.1 w_row1 w_row2 rfl,
   (claim_C6_theorem [] [] (by decide)).2.2 w_row1 w_row3 rfl rfl (by decide)⟩

/-! ## Claim C4 -/

theorem store_relationships_cons (pid : Int) (q : Proposal) (rest : List Proposal)
    (st : List RelRow) :
    store_relationships pid (q :: rest) st =
      store_relationships pid rest (upsert st (proposalRow pid q)) := rfl

theorem triple_present_upsert (st : List RelRow) (r : RelRow) (k : Int × Int × String)
    (h : ∃ x ∈ st, tripleKey x = k) : ∃ x ∈ upsert st r, tripleKey x = k := by
  by_cases hk : k = tripleKey r
  · exact ⟨r, mem_upsert_self _ _, hk.symm⟩
  · obtain ⟨x, hx, hxk⟩ := h
    exact ⟨x, mem_upsert_of_ne _ _ _ hx (fun h2 => hk (hxk ▸ h2)), hxk⟩

theorem store_relationships_present_mono (props : List Proposal) (pid : Int)
    (st : List RelRow) (k : Int × Int × String) (h : ∃ x ∈ st, tripleKey x = k) :
    ∃ x ∈ store_relationships pid props st, tripleKey x = k := by
  induction props generalizing st with
  | nil => exact h
  | cons q rest ih =>
    rw [store_relationships_cons]
    exact ih _ (triple_present_upsert _ _ _ h)

theorem store_relationships_present (props : List Proposal) (pid : Int) (st : List RelRow)
    (q : Proposal) (hq : q ∈ props) :
    ∃ x ∈ store_relationships pid props st,
      tripleKey x = (pid, q.target_product_id, q.relationship_type) := by
  induction props generalizing st with
  | nil => cases hq
  | cons q0 rest ih =>
    rw [store_relationships_cons]
    rcases List.mem_cons.mp hq with rfl | hmem
    · exact store_relationships_present_mono _ _ _ _ ⟨proposalRow pid q, mem_upsert_self _ _, rfl⟩
    · exact ih _ hmem

/-- Claim C4 counterexample: a provider round with six proposals — one with
`similarity_score = 0.4`, one with malformed type `"BOGUS"`, two whose
targets (999, 777) are not in the catalog — persists **all six** rows to the
store, with no cap at 5, no score filtering and no target/type validation;
the call still succeeds and rebuilds the graph. -/
theorem claim_C4_counterexample :
    store_relationships 1 cx_proposals4 [] =
      [⟨1, 2, "SIMILAR_TO", some (2/5 : Rat), some "low score"⟩,
       ⟨1, 2, "COMPLEMENTS", some (3/5 : Rat), some "a"⟩,
       ⟨1, 2, "ALTERNATIVE_TO", some (7/10 : Rat), some "b"⟩,
       ⟨1, 2, "BOGUS", some (9/10 : Rat), some "malformed type"⟩,
       ⟨1, 999, "SIMILAR_TO", some (9/10 : Rat), some "no such product"⟩,
       ⟨1, 777, "SIMILAR_TO", some (1/2 : Rat), some ""⟩] ∧
    hasProduct cx_snapshot4.products 999 = false ∧
    hasProduct cx_snapshot4.products 777 = false ∧
    (analyze_product_relationships cx_snapshot4 1 cx_proposals4).isOk = true :=
  ⟨rfl, rfl, rfl, rfl⟩

/-- Claim C4 (amended): the core performs no validation of provider
proposals.  When the source product exists, the discovery round persists
**every** parsed proposal — regardless of its similarity score, target-id
existence, or relationship type, with a missing score defaulting to 0.5 and
missing reasoning to the empty string — then rebuilds the graph from the
updated store and returns the proposals unchanged.  Self-filtering
(score ≥ 0.5, at most 5) is only requested of the provider in the prompt. -/
theorem claim_C4_theorem (s : Snapshot) (pid : Int) (props : List Proposal) (q : Proposal)
    (hpid : hasProduct s.products pid = true) (hq : q ∈ props) :
    analyze_product_relationships s pid props =
      .ok (store_relationships pid props s.relationships,
        build_graph_from_db ⟨s.products, store_relationships pid props s.relationships⟩,
        props) ∧
    (store_relationships pid props s.relationships).any
      (fun row => decide (tripleKey row = (pid, q.target_product_id, q.relationship_type))) =
      true := by
  constructor
  · simp [analyze_product_relationships, hpid]
  · obtain ⟨x, hx, hxk⟩ := store_relationships_present props pid s.relationships q hq
    exact List.any_eq_true.mpr ⟨x, hx, by simp [hxk]⟩

/-- Claim C4 witness: the six-proposal round on the two-product catalog; the
dangling-target proposal (999) is persisted. -/
theorem claim_C4_witness :
    analyze_product_relationships cx_snapshot4 1 cx_proposals4 =
      .ok (store_relationships 1 cx_proposals4 cx_snapshot4.relationships,
        build_graph_from_db ⟨cx_snapshot4.products,
          store_relationships 1 cx_proposals4 cx_snapshot4.relationships⟩,
        cx_proposals4) ∧
    (store_relationships 1 cx_proposals4 cx_snapshot4.relationships).any
      (fun row => decide (tripleKey row = (1, 999, "SIMILAR_TO"))) = true :=
  claim_C4_theorem cx_snapshot4 1 cx_proposals4
    ⟨999, "SIMILAR_TO", some (9/10 : Rat), some "no such product"⟩ rfl
    (List.Mem.tail _ (List.Mem.tail _ (List.Mem.tail _ (List.Mem.tail _ (List.Mem.head _)))))

/-! ## Sorting lemmas (towards claim C5) -/

theorem mem_insertDesc (x z : RelView) (l : List RelView) :
    z ∈ insertDesc x l ↔ z = x ∨ z ∈ l := by
  induction l with
  | nil => simp [insertDesc]
  | cons y ys ih =>
    by_cases h : viewScoreKey y ≤ viewScoreKey x
    · simp [insertDesc, h]
    · simp [insertDesc, h, ih]
      tauto

theorem sortDesc_mem (z : RelView) (l : List RelView) : z ∈ sortDesc l ↔ z ∈ l := by
  induction l with
  | nil => simp [sortDesc]
  | cons x xs ih => simp [sortDesc, mem_insertDesc, ih]

theorem insertDesc_pairwise (x : RelView) (l : List RelView)
    (h : l.Pairwise (fun a b => viewScoreKey b ≤ viewScoreKey a)) :
    (insertDesc x l).Pairwise (fun a b => viewScoreKey b ≤ viewScoreKey a) := by
  induction l with
  | nil => simp [insertDesc]
  | cons y ys ih =>
    rw [List.pairwise_cons] at h
    by_cases hyx : viewScoreKey y ≤ viewScoreKey x
    · rw [insertDesc, if_pos hyx, List.pairwise_cons]
      refine ⟨?_, List.pairwise_cons.mpr h⟩
      intro z hz
      rcases List.mem_cons.mp hz with rfl | hz2
      · exact hyx
      · exact le_trans (h.1 z hz2) hyx
    · rw [insertDesc, if_neg hyx, List.pairwise_cons]
      refine ⟨?_, ih h.2⟩
      intro z hz
      rcases (mem_insertDesc _ _ _).mp hz with rfl | hz2
      · exact le_of_lt (not_le.mp hyx)
      · exact h.1 z hz2

theorem sortDesc_pairwise (l : List RelView) :
    (sortDesc l).Pairwise (fun a b => viewScoreKey b ≤ viewScoreKey a) := by
  induction l with
  | nil => simp [sortDesc]
  | cons x xs ih => exact insertDesc_pairwise _ _ ih

theorem pySorted_ok_of_all_some (l : List RelView)
    (h : ∀ v ∈ l, v.similarity_score.isSome) :
    pySortedByScoreDesc l = .ok (sortDesc l) := by
  unfold pySortedByScoreDesc
  rw [if_neg]
  intro hcon
  have h2 : l.any (fun v => v.similarity_score.isNone) = false := by
    rw [List.any_eq_false]
    intro v hv
    have h3 := h v hv
    cases hs : v.similarity_score <;> simp_all
  rw [h2] at hcon
  exact absurd hcon.2 (by simp)

theorem recs_component_props (rels : List RelView) (ty : String) (limit : Nat) :
    ((sortDesc (rels.filter (fun v => decide (v.relationship_type = ty)))).take limit).length ≤
      limit ∧
    ((sortDesc (rels.filter (fun v => decide (v.relationship_type = ty)))).take limit).Pairwise
      (fun a b => viewScoreKey b ≤ viewScoreKey a) ∧
    ∀ v ∈ (sortDesc (rels.filter (fun v => decide (v.relationship_type = ty)))).take limit,
      v.relationship_type = ty ∧ v ∈ rels := by
  refine ⟨List.length_take_le _ _, ?_, ?_⟩
  · exact (sortDesc_pairwise _).sublist (List.take_sublist _ _)
  · intro v hv
    have hv2 : v ∈ sortDesc (rels.filter (fun v => decide (v.relationship_type = ty))) :=
      (List.take_sublist _ _).subset hv
    have hv3 := (sortDesc_mem _ _).mp hv2
    have hv4 := List.mem_filter.mp hv3
    exact ⟨by simpa using hv4.2, hv4.1⟩

/-! ## Claim C5 -/

/-- Claim C5 counterexample: two simultaneous refutations.  (1) Two
SIMILAR_TO relationships of product 1 with equal scores 0.5 stored in order
target-3-then-target-2 come back as `[3, 2]` — Python's stable sort keeps
store order for ties, it does **not** break ties by ascending target id
(which would give `[2, 3]`).  (2) With a NULL score among two rows,
`sorted` raises `TypeError` instead of treating the absent score as 0.0. -/
theorem claim_C5_counterexample :
    (get_recommendations cx_snapshot5a 1 5).toOption.map
      (fun r => r.similar.map (fun v => v.product_id)) = some [3, 2] ∧
    (get_recommendations cx_snapshot5b 1 5).isOk = false :=
  ⟨rfl, rfl⟩

/-- Claim C5 (amended): for every product id and limit, when every outgoing
relationship view carries a score (a NULL score makes Python's `sorted`
raise once a partition has two or more rows, rather than sorting as 0.0),
the recommendations call succeeds and returns the outgoing discovered
relationships partitioned into similar / complements / alternatives
(structural edges never enter the store), each partition sorted by score
descending — ties keeping store order, not ascending-target order — and
truncated to at most `limit` items (call sites default the limit to 5); a
product with no outgoing relationships yields three empty sequences. -/
theorem claim_C5_theorem (s : Snapshot) (pid : Int) (limit : Nat)
    (hscores : ∀ v ∈ get_product_relationships s pid, v.similarity_score.isSome) :
    (get_recommendations s pid limit).isOk = true ∧
    ∀ r : Recommendations, get_recommendations s pid limit = .ok r →
      (r.similar.length ≤ limit ∧ r.complements.length ≤ limit ∧
        r.alternatives.length ≤ limit) ∧
      (r.similar.Pairwise (fun a b => viewScoreKey b ≤ viewScoreKey a) ∧
        r.complements.Pairwise (fun a b => viewScoreKey b ≤ viewScoreKey a) ∧
        r.alternatives.Pairwise (fun a b => viewScoreKey b ≤ viewScoreKey a)) ∧
      ((∀ v ∈ r.similar, v.relationship_type = "SIMILAR_TO" ∧
          v ∈ get_product_relationships s pid) ∧
        (∀ v ∈ r.complements, v.relationship_type = "COMPLEMENTS" ∧
          v ∈ get_product_relationships s pid) ∧
        (∀ v ∈ r.alternatives, v.relationship_type = "ALTERNATIVE_TO" ∧
          v ∈ get_product_relationships s pid)) ∧
      (get_product_relationships s pid = [] → r = ⟨[], [], []⟩) := by
  have h1 := pySorted_ok_of_all_some
    ((get_product_relationships s pid).filter
      (fun v => decide (v.relationship_type = "SIMILAR_TO")))
    (fun v hv => hscores v (List.mem_of_mem_filter hv))
  have h2 := pySorted_ok_of_all_some
    ((get_product_relationships s pid).filter
      (fun v => decide (v.relationship_type = "COMPLEMENTS")))
    (fun v hv => hscores v (List.mem_of_mem_filter hv))
  have h3 := pySorted_ok_of_all_some
    ((get_product_relationships s pid).filter
      (fun v => decide (v.relationship_type = "ALTERNATIVE_TO")))
    (fun v hv => hscores v (List.mem_of_mem_filter hv))
  have heq : get_recommendations s pid limit =
      .ok ⟨(sortDesc ((get_product_relationships s pid).filter
          (fun v => decide (v.relationship_type = "SIMILAR_TO")))).take limit,
        (sortDesc ((get_product_relationships s pid).filter
          (fun v => decide (v.relationship_type = "COMPLEMENTS")))).take limit,
        (sortDesc ((get_product_relationships s pid).filter
          (fun v => decide (v.relationship_type = "ALTERNATIVE_TO")))).take limit⟩ := by
    simp only [get_recommendations]
    rw [h1, h2, h3]
    rfl
  refine ⟨by rw [heq]; rfl, ?_⟩
  intro r hr
  rw [heq] at hr
  have hr2 : r = ⟨(sortDesc ((get_product_relationships s pid).filter
        (fun v => decide (v.relationship_type = "SIMILAR_TO")))).take limit,
      (sortDesc ((get_product_relationships s pid).filter
        (fun v => decide (v.relationship_type = "COMPLEMENTS")))).take limit,
      (sortDesc ((get_product_relationships s pid).filter
        (fun v => decide (v.relationship_type = "ALTERNATIVE_TO")))).take limit⟩ :=
    (Except.ok.injEq _ _ ▸ hr :).symm
  subst hr2
  have c1 := recs_component_props (get_product_relationships s pid) "SIMILAR_TO" limit
  have c2 := recs_component_props (get_product_relationships s pid) "COMPLEMENTS" limit
  have c3 := recs_component_props (get_product_relationships s pid) "ALTERNATIVE_TO" limit
  refine ⟨⟨c1.1, c2.1, c3.1⟩, ⟨c1.2.1, c2.2.1, c3.2.1⟩, ⟨c1.2.2, c2.2.2, c3.2.2⟩, ?_⟩
  intro hnil
  simp [hnil, sortDesc]

/-- Claim C5 witness: the amended statement at the concrete snapshot with
two equal-score relationships. -/
theorem claim_C5_witness :
    (get_recommendations cx_snapshot5a 1 5).isOk = true ∧
    (⟨[⟨3, "S3", "P3", none, none, none, "SIMILAR_TO", some (Rat.mk' 1 2), some ""⟩,
       ⟨2, "S2", "P2", none, none, none, "SIMILAR_TO", some (Rat.mk' 1 2), some ""⟩], [], []⟩ :
      Recommendations).similar.length ≤ 5 :=
  ⟨(claim_C5_theorem cx_snapshot5a 1 5 (by decide)).1,
    (((claim_C5_theorem cx_snapshot5a 1 5 (by decide)).2
      ⟨[⟨3, "S3", "P3", none, none, none, "SIMILAR_TO", some (Rat.mk' 1 2), some ""⟩,
        ⟨2, "S2", "P2", none, none, none, "SIMILAR_TO", some (Rat.mk' 1 2), some ""⟩], [], []⟩
      (by rfl)).1).1⟩

/-! ## Batch lemmas (towards claim C8) -/

theorem batchStep_ok (total : Nat) (analyze : Int → Except String (List Proposal))
    (p c : Nat) (log : List ProgressUpdate) (i : Int) (rels : List Proposal)
    (h : analyze i = .ok rels) :
    batchStep total analyze (p, c, log) i =
      (p + 1, c + rels.length, log ++ [⟨i, p + 1, total, rels.length⟩]) := by
  simp [batchStep, h]

theorem batchStep_error (total : Nat) (analyze : Int → Except String (List Proposal))
    (p c : Nat) (log : List ProgressUpdate) (i : Int) (msg : String)
    (h : analyze i = .error msg) :
    batchStep total analyze (p, c, log) i = (p + 1, c, log) := by
  simp [batchStep, h]

theorem batch_foldl_spec (total : Nat) (analyze : Int → Except String (List Proposal))
    (ids : List Int) : ∀ (p c : Nat) (log : List ProgressUpdate),
    ids.foldl (batchStep total analyze) (p, c, log) =
      (p + ids.length, c + (ids.map (fun i => exceptSize (analyze i))).sum,
        log ++ batchLog total analyze p ids) := by
  induction ids with
  | nil => intro p c log; simp [batchLog]
  | cons i rest ih =>
    intro p c log
    rw [List.foldl_cons]
    cases h : analyze i with
    | ok rels =>
      rw [batchStep_ok total analyze p c log i rels h, ih]
      simp only [batchLog, h, exceptSize, List.map_cons, List.sum_cons, List.length_cons,
        Prod.mk.injEq]
      refine ⟨by omega, by omega, by simp [List.append_assoc]⟩
    | error msg =>
      rw [batchStep_error total analyze p c log i msg h, ih]
      simp only [batchLog, h, exceptSize, List.map_cons, List.sum_cons, List.length_cons,
        Prod.mk.injEq]
      refine ⟨by omega, by omega, trivial⟩

theorem batchLog_map (total : Nat) (analyze : Int → Except String (List Proposal)) :
    ∀ (p : Nat) (ids : List Int),
    (batchLog total analyze p ids).map (fun e => e.product_id) =
      ids.filter (fun i => (analyze i).isOk) := by
  intro p ids
  induction ids generalizing p with
  | nil => rfl
  | cons i rest ih =>
    cases h : analyze i with
    | ok rels => simp [batchLog, h, List.filter_cons, Except.isOk, Except.toBool, ih]
    | error msg => simp [batchLog, h, List.filter_cons, Except.isOk, Except.toBool, ih]

theorem batchLog_entries (total : Nat) (analyze : Int → Except String (List Proposal)) :
    ∀ (p : Nat) (ids : List Int) (e : ProgressUpdate), e ∈ batchLog total analyze p ids →
    e.total = total ∧ (analyze e.product_id).isOk = true ∧
    e.relationships_found = exceptSize (analyze e.product_id) := by
  intro p ids
  induction ids generalizing p with
  | nil => intro e he; cases he
  | cons i rest ih =>
    intro e he
    cases h : analyze i with
    | ok rels =>
      rw [batchLog, h] at he
      rcases List.mem_cons.mp he with rfl | hmem
      · exact ⟨rfl, by simp [h, Except.isOk, Except.toBool], by simp [h, exceptSize]⟩
      · exact ih _ _ hmem
    | error msg =>
      rw [batchLog, h] at he
      exact ih _ _ he

/-! ## Claim C8 -/

/-- Claim C8 counterexample: with ids `[1, 2]` where item 1 fails, the batch
catches the failure, still counts item 1 as processed (summary `(2, 2, 0)`)
— but the progress observer is invoked only once, for item 2 (payload
`{2, 2, 2, 0}`), not "after every item" as the claim states: the callback
sits inside the `try`, so a failed item produces no invocation. -/
theorem claim_C8_counterexample :
    batch_analyze_all_products [1, 2] cx_analyze8 = (⟨2, 2, 0⟩, [⟨2, 2, 2, 0⟩]) := rfl

/-- Claim C8 (amended): the batch processes the ids sequentially in order
and never aborts early — a per-item failure is caught and `processed` is
still incremented — and the progress observer, when supplied, is invoked
after every **successfully** processed item (failed items produce no
invocation), in order, with the product id, processed count, total, and
relationships-found count. -/
theorem claim_C8_theorem (ids : List Int) (analyze : Int → Except String (List Proposal)) :
    (batch_analyze_all_products ids analyze).1.total_products = ids.length ∧
    (batch_analyze_all_products ids analyze).1.processed = ids.length ∧
    (batch_analyze_all_products ids analyze).1.total_relationships =
      (ids.map (fun i => exceptSize (analyze i))).sum ∧
    ((batch_analyze_all_products ids analyze).2.map (fun e => e.product_id) =
      ids.filter (fun i => (analyze i).isOk)) ∧
    (∀ e ∈ (batch_analyze_all_products ids analyze).2,
      e.total = ids.length ∧ (analyze e.product_id).isOk = true ∧
      e.relationships_found = exceptSize (analyze e.product_id)) := by
  have hspec := batch_foldl_spec ids.length analyze ids 0 0 []
  refine ⟨rfl, ?_, ?_, ?_, ?_⟩
  · show (ids.foldl (batchStep ids.length analyze) (0, 0, [])).1 = ids.length
    rw [hspec]
    simp
  · show (ids.foldl (batchStep ids.length analyze) (0, 0, [])).2.1 = _
    rw [hspec]
    simp
  · show (ids.foldl (batchStep ids.length analyze) (0, 0, [])).2.2.map _ = _
    rw [hspec]
    simpa using batchLog_map ids.length analyze 0 ids
  · intro e he
    have he2 : e ∈ batchLog ids.length analyze 0 ids := by
      have : (ids.foldl (batchStep ids.length analyze) (0, 0, [])).2.2 =
          batchLog ids.length analyze 0 ids := by rw [hspec]; simp
      exact this ▸ he
    exact batchLog_entries ids.length analyze 0 ids e he2

/-- Claim C8 witness: the two-item batch with a failing first item. -/
theorem claim_C8_witness :
    (batch_analyze_all_products [1, 2] cx_analyze8).1.processed = 2 ∧
    (batch_analyze_all_products [1, 2] cx_analyze8).2.map (fun e => e.product_id) = [2] :=
  ⟨(claim_C8_theorem [1, 2] cx_analyze8).2.1, (claim_C8_theorem [1, 2] cx_analyze8).2.2.2.1⟩

/-! ## Product-node lemmas (towards claim C10) -/

theorem prodNodeFold_lookup_mem (ps : List ProductRow) (g : Graph) (p : ProductRow)
    (hp : p ∈ ps) (hnodup : (ps.map (fun q => q.id)).Nodup) :
    lookupNodeL (ps.foldl (fun g q => g.add_node (.pid q.id) (productNodeAttrs q)) g).nodes
      (.pid p.id) = some (productNodeAttrs p) := by
  induction ps generalizing g with
  | nil => cases hp
  | cons q rest ih =>
    have hn2 := List.nodup_cons.mp (show (q.id :: rest.map (fun x => x.id)).Nodup from hnodup)
    rw [List.foldl_cons]
    rcases List.mem_cons.mp hp with heq | hmem
    · rw [heq]
      have hne : ∀ x ∈ rest, NodeId.pid x.id ≠ NodeId.pid q.id := fun x hx h2 => hn2.1 (by
        rw [show q.id = x.id from (NodeId.pid.inj h2).symm]
        exact List.mem_map.mpr ⟨x, hx, rfl⟩)
      rw [prodNodeFold_lookup_ne rest _ _ hne]
      exact lookupNodeL_set_self _ _ _
    · exact ih _ hmem hn2.2

theorem build_product_node (s : Snapshot) (p : ProductRow) (hp : p ∈ s.products)
    (hnodup : (s.products.map (fun q => q.id)).Nodup) :
    lookupNodeL (build_graph_from_db s).nodes (.pid p.id) = some (productNodeAttrs p) := by
  rw [build_steps]
  refine addMadeByEdges_node_some _ _ _ _ (addBelongsToEdges_node_some _ _ _ _
    (addRelationshipEdges_node_some _ _ _ _ ?_))
  rw [addBrandNodes_def, brandNodeFold_lookup_pid, addCategoryNodes_def, catNodeFold_lookup_pid]
  exact prodNodeFold_lookup_mem _ _ _ hp hnodup

theorem get_product_relationships_title (s : Snapshot) (pid : Int) (v : RelView)
    (hv : v ∈ get_product_relationships s pid) :
    (findProduct s.products v.product_id).map
      (fun p => displayTitle p.enriched_title p.raw_title) = some v.title := by
  unfold get_product_relationships at hv
  obtain ⟨r, hr, hf⟩ := List.mem_filterMap.mp hv
  by_cases hs : r.source = pid
  · rw [if_pos hs] at hf
    obtain ⟨p, hp1, hp2⟩ := Option.map_eq_some'.mp hf
    have ht : v.product_id = r.target := by rw [← hp2]; rfl
    rw [ht, hp1, ← hp2]
    rfl
  · rw [if_neg hs] at hf
    cases hf

/-! ## Claim C10 -/

/-- Claim C10: everywhere the display-title fallback
(`enriched_title or raw_title`) is applied — product-node construction at
build time and the relationship views — an enriched title that is present
but equal to the empty string is treated like an absent one: the display
title falls back to the raw title whenever the enriched title is empty,
not only when it is absent. -/
theorem claim_C10_theorem :
    (∀ raw : String, displayTitle (some "") raw = raw ∧ displayTitle none raw = raw) ∧
    (∀ (s : Snapshot) (p : ProductRow), p ∈ s.products →
      (s.products.map (fun q => q.id)).Nodup →
      lookupNodeL (build_graph_from_db s).nodes (.pid p.id) = some (productNodeAttrs p)) ∧
    (∀ (s : Snapshot) (pid : Int) (v : RelView), v ∈ get_product_relationships s pid →
      (findProduct s.products v.product_id).map
        (fun p => displayTitle p.enriched_title p.raw_title) = some v.title) :=
  ⟨fun _raw => ⟨rfl, rfl⟩,
   fun s p hp hnodup => build_product_node s p hp hnodup,
   fun s pid v hv => get_product_relationships_title s pid v hv⟩

/-- Claim C10 witness: in `w_snapshot10` both products carry
`enriched_title = some ""`; the graph node of product 1 and the
relationship view of target 2 both fall back to the raw title. -/
theorem claim_C10_witness :
    displayTitle (some "") "RawTitle One" = "RawTitle One" ∧
    lookupNodeL (build_graph_from_db w_snapshot10).nodes (.pid 1) =
      some (productNodeAttrs ⟨1, "S1", "RawTitle One", none, none, none, some "", none⟩) ∧
    (findProduct w_snapshot10.products 2).map
      (fun p => displayTitle p.enriched_title p.raw_title) = some "RawTitle Two" :=
  ⟨(claim_C10_theorem.1 "RawTitle One").1,
   claim_C10_theorem.2.1 w_snapshot10
     ⟨1, "S1", "RawTitle One", none, none, none, some "", none⟩ (List.Mem.head _) (by decide),
   claim_C10_theorem.2.2 w_snapshot10 1
     ⟨2, "S2", "RawTitle Two", none, none, none, "SIMILAR_TO", some (Rat.mk' 1 2), some ""⟩
     (List.Mem.head _)⟩
